import Mathlib

/-!
Verification of the duplicalis Duplicate Classification Engine.

This file gives a shallow embedding in Lean of the engine's core code:
the fingerprint and cache store (src/cache.js), the vector combiner,
pairwise similarity engine and suppression heuristics (src/similarity.js),
and the label classifier (labels.js).  JavaScript values are modelled as
follows: numbers appearing as configuration weights, thresholds and limits
are rationals; vector components and similarity scores are real numbers
(the idealization of IEEE doubles); a possibly-absent JavaScript field is
an `Option`; a JavaScript object used as a string-keyed map is an
association list kept in insertion order.  File system and backend
effects are passed in explicitly as data.
-/

namespace Duplicalis

/-! ## Fingerprint and cache store (src/cache.js) -/

/-- `CACHE_VERSION` from src/cache.js. -/
def CACHE_VERSION : Int := 1

/-- Digest of `fingerprintRepresentation` (src/cache.js).  The source feeds
the five strings, each defaulted to the empty string, in order into one
sha1 instance and returns the hex digest; the digest is therefore a fixed
deterministic function of the concatenated byte stream.  sha1 itself is
the external node `crypto` library; it is modelled by the stream it
digests, which is faithful for every property that depends only on
equality of digests of streams (sha1 is a deterministic function, and the
spec idealizes it as collision-free). -/
def fingerprintRepresentation
    (codeRep styleRep styleText structureRep holisticRep : String) : String :=
  codeRep ++ styleRep ++ styleText ++ structureRep ++ holisticRep

/-- A cached entry as stored in the cache file: all fields may be absent
or of the wrong shape in a hand-edited or corrupted store, so the vector
fields are `Option` (`none` models a missing field, `some v` an array). -/
structure CachedEntry where
  fingerprint : Option String
  codeVec : Option (List ℝ)
  styleVec : Option (List ℝ)
  structureVec : Option (List ℝ)
  holisticVec : Option (List ℝ)
  filePath : Option String

/-- The parsed content of a cache file: `version` is `none` when the field
is missing (it compares unequal to `CACHE_VERSION` either way), `entries`
is `none` when the field is missing or null (falsy in the source's
`!parsed.entries` check; an empty object is truthy and maps to
`some []`). -/
structure ParsedStore where
  version : Option Int
  entries : Option (List (String × CachedEntry))

/-- The empty valid store `{ version: CACHE_VERSION, entries: {} }`. -/
def emptyStore : ParsedStore :=
  { version := some CACHE_VERSION, entries := some [] }

/-- `loadCache` from src/cache.js.  The file system interaction is passed
in as data: `fileExists` is the result of `fs.existsSync`, and
`readResult` is the outcome of reading and decoding the file — `none`
when the read threw or neither msgpack decoding nor JSON parsing
succeeded (the source catches this, logs a warning and degrades), `some
parsed` on success.  An absent `cachePath` is `none`; the source's falsy
check also treats the empty string as absent. -/
def loadCache (cachePath : Option String) (fileExists : Bool)
    (readResult : Option ParsedStore) : ParsedStore :=
  match cachePath with
  | none => emptyStore
  | some p =>
    if p = "" then emptyStore
    else if !fileExists then emptyStore
    else
      match readResult with
      | none => emptyStore
      | some parsed =>
        if parsed.version != some CACHE_VERSION || parsed.entries.isNone then
          emptyStore
        else parsed

/-- `buildCacheKey` from src/cache.js. -/
def buildCacheKey (modelKey componentId : String) : String :=
  modelKey ++ ":" ++ componentId

/-- `isCompleteCachedEntry` from src/similarity.js: the entry exists, its
stored fingerprint equals the freshly computed one, and all four vector
fields are non-empty arrays. -/
def isCompleteCachedEntry (entry : Option CachedEntry) (fingerprint : String) : Bool :=
  match entry with
  | none => false
  | some e =>
    if e.fingerprint ≠ some fingerprint then false
    else
      [e.codeVec, e.styleVec, e.structureVec, e.holisticVec].all fun v =>
        match v with
        | some l => !l.isEmpty
        | none => false

/-- `zeroVector` from src/similarity.js. -/
def zeroVector (length : Nat) : List ℝ :=
  List.replicate length 0

/-- The four vectors of one component after cache resolution, together
with whether the component was a complete cache hit (the source
increments `cacheStats.hits` exactly then, and `cacheStats.misses`
otherwise) and the list of texts sent to the embedding backend. -/
structure ResolvedVectors where
  codeVec : List ℝ
  styleVec : List ℝ
  structureVec : List ℝ
  holisticVec : List ℝ
  hit : Bool
  embedCalls : List String

/-- The per-component cache resolution step of `embedComponents`
(src/similarity.js lines 51–87): on a complete cached entry all four
vectors are taken from the cache; on a bare fingerprint match the stored
fields (possibly absent) are salvaged; otherwise everything starts
absent.  Each still-absent vector is then requested from the backend,
except that an absent style vector with an empty style representation
becomes a zero vector of the code vector's dimensionality.  The backend
is the injected `embed` function. -/
def resolveComponentVectors (cached : Option CachedEntry) (fingerprint : String)
    (embed : String → List ℝ)
    (codeRep styleRep structureRep holisticRep : String) : ResolvedVectors :=
  let fingerprintMatch : Bool :=
    match cached with
    | some c => c.fingerprint = some fingerprint
    | none => false
  let cacheComplete := isCompleteCachedEntry cached fingerprint
  let start : Option (List ℝ) × Option (List ℝ) × Option (List ℝ) × Option (List ℝ) :=
    match cached with
    | some c =>
      if cacheComplete || fingerprintMatch then
        (c.codeVec, c.styleVec, c.structureVec, c.holisticVec)
      else (none, none, none, none)
    | none => (none, none, none, none)
  let codeVec0 := start.1
  let styleVec0 := start.2.1
  let structureVec0 := start.2.2.1
  let holisticVec0 := start.2.2.2
  let codeVec := codeVec0.getD (embed codeRep)
  let codeCalls := match codeVec0 with | none => [codeRep] | some _ => []
  let dimension := max 1 codeVec.length
  let styleVec := styleVec0.getD (if styleRep ≠ "" then embed styleRep else zeroVector dimension)
  let styleCalls :=
    match styleVec0 with
    | none => if styleRep ≠ "" then [styleRep] else []
    | some _ => []
  let structureVec := structureVec0.getD (embed structureRep)
  let structureCalls := match structureVec0 with | none => [structureRep] | some _ => []
  let holisticVec := holisticVec0.getD (embed holisticRep)
  let holisticCalls := match holisticVec0 with | none => [holisticRep] | some _ => []
  { codeVec := codeVec
    styleVec := styleVec
    structureVec := structureVec
    holisticVec := holisticVec
    hit := cacheComplete
    embedCalls := codeCalls ++ styleCalls ++ structureCalls ++ holisticCalls }

/-! ## Vector math

The repository imports `normalize` and `cosine` from `src/math.js`, which
is not among the available sources; both are modelled from the spec. -/

/-- Sum of squares of a vector, the quantity under the square root of the
L2 norm. -/
def sumSq (v : List ℝ) : ℝ :=
  v.foldl (fun acc x => acc + x * x) 0

/-- Modelled from the spec: `normalize` from the missing src/math.js.
§4.3 requires L2-normalization where a zero-norm vector is returned
unchanged rather than divided by zero; this matches the `normalize`
helpers visible in src/embedding/remote.js and src/model-fetch.js, which
divide by `sqrt(sum of squares) || 1`. -/
noncomputable def normalize (v : List ℝ) : List ℝ :=
  let norm := Real.sqrt (sumSq v)
  let divisor := if norm = 0 then 1 else norm
  v.map fun x => x / divisor

/-- Modelled from the spec: `cosine` from the missing src/math.js.  §4.4
step 2 asks for the cosine similarity of two vectors and §4.3 states that
cosine similarity against an empty vector is defined as 0; the standard
formula with a zero-denominator (hence also empty-vector) guard. -/
noncomputable def cosine (a b : List ℝ) : ℝ :=
  let d := (a.zip b).foldl (fun acc p => acc + p.1 * p.2) 0
  let na := Real.sqrt (sumSq a)
  let nb := Real.sqrt (sumSq b)
  if na = 0 ∨ nb = 0 then 0 else d / (na * nb)

/-! ## Vector combiner (src/similarity.js) -/

/-- `DEFAULT_WEIGHT` from src/similarity.js, as the resolved weight
record: code 0.55, style 0.2, structure 0.15, holistic 0.1.  (`struct`
stands for the source's `structure` key, a Lean keyword.) -/
structure Weights where
  code : ℚ
  style : ℚ
  struct : ℚ
  holistic : ℚ

/-- A possibly partial `config.weight` object: absent keys fall back to
`DEFAULT_WEIGHT` via the source's object spread. -/
structure PartWeights where
  code : Option ℚ := none
  style : Option ℚ := none
  struct : Option ℚ := none
  holistic : Option ℚ := none

/-- `DEFAULT_WEIGHT` from src/similarity.js. -/
def DEFAULT_WEIGHT : Weights :=
  { code := 0.55, style := 0.2, struct := 0.15, holistic := 0.1 }

/-- `{ ...DEFAULT_WEIGHT, ...weight }` from `combineVectors`. -/
def resolvedWeight (weight : PartWeights) : Weights :=
  { code := weight.code.getD DEFAULT_WEIGHT.code
    style := weight.style.getD DEFAULT_WEIGHT.style
    struct := weight.struct.getD DEFAULT_WEIGHT.struct
    holistic := weight.holistic.getD DEFAULT_WEIGHT.holistic }

/-- The four component vectors handed to `combineVectors`. -/
structure FourVectors where
  codeVec : List ℝ
  styleVec : List ℝ
  structureVec : List ℝ
  holisticVec : List ℝ

/-- The `parts` list of `combineVectors`: the four keyed vectors with
their effective weights (style forced to 0 when the unit has no style
signal), keeping only parts whose vector is a non-empty array and whose
weight is positive. -/
def combineParts (vectors : FourVectors) (weight : PartWeights)
    (hasStyleSignal : Bool) : List (List ℝ × ℚ) :=
  let w := resolvedWeight weight
  ([(vectors.codeVec, w.code),
    (vectors.styleVec, if hasStyleSignal = false then 0 else w.style),
    (vectors.structureVec, w.struct),
    (vectors.holisticVec, w.holistic)]).filter
    fun part => !part.1.isEmpty && 0 < part.2

/-- The weighted element-wise sum of `combineVectors`: vectors truncated
to the shortest common length, each scaled by its weight renormalized by
the total surviving weight. -/
def combineRaw (parts : List (List ℝ × ℚ)) : List ℝ :=
  let size :=
    match parts.map fun part => part.1.length with
    | [] => 0
    | l :: ls => ls.foldl min l
  let totalWeight := (parts.map fun part => part.2).sum
  (List.range size).map fun i =>
    parts.foldl (fun acc part => acc + (part.1.getD i 0) * ((part.2 / totalWeight : ℚ) : ℝ)) 0

/-- `combineVectors` from src/similarity.js: filter the parts, and either
return the empty vector (no survivors) or the L2-normalized weighted
sum. -/
noncomputable def combineVectors (vectors : FourVectors) (weight : PartWeights)
    (hasStyleSignal : Bool) : List ℝ :=
  let parts := combineParts vectors weight hasStyleSignal
  if parts.isEmpty then [] else normalize (combineRaw parts)

/-! ## Component metadata and runtime entries -/

/-- The `props` metadata of a component: `names` may itself be absent
(the source guards it with `component.props?.names?.length || 0`). -/
structure Props where
  names : Option (List String)
  spreads : Nat

/-- A unit's structural metadata as consumed by the similarity engine and
label classifier.  Metadata lists may be absent (`none` models a missing
JavaScript field; the consuming code defaults most of them, but not
all). -/
structure Component where
  id : String
  name : String
  filePath : String
  source : String
  isCompareTarget : Bool
  isWrapper : Bool
  componentRefs : Option (List String)
  logicTokens : Option (List String)
  hooks : Option (List String)
  jsxTags : Option (List String)
  textNodes : Option (List String)
  literals : Option (List String)
  classNames : Option (List String)
  props : Option Props

/-- A runtime entry: a component joined with its vectors and style
information, as produced by `embedComponents`. -/
structure Entry where
  component : Component
  vector : List ℝ
  codeVec : List ℝ
  styleVec : List ℝ
  structureVec : List ℝ
  holisticVec : List ℝ
  styleText : String
  stylePaths : List String
  hasCssInJs : Bool
  hasStyles : Bool

/-- The engine configuration fields consumed by `findSimilarities`,
`labelPair` and the path gate.  `maxSimilarityThreshold`, `limit` and
`minPathDistance` may be absent (the source applies `?? 1`, a null
check, and `|| 0` respectively). -/
structure Config where
  similarityThreshold : ℚ
  highSimilarityThreshold : ℚ
  maxSimilarityThreshold : Option ℚ := none
  limit : Option ℚ := none
  compareGlobs : List String := []
  minPathDistance : Option ℚ := none
  disableAnalyses : List String := []
  weight : PartWeights := {}

/-! ## Suppression heuristics (src/similarity.js) -/

/-- `listLength` from src/similarity.js: the length of a list when the
field holds an array, 0 otherwise. -/
def listLength (list : Option (List String)) : Nat :=
  match list with
  | some l => l.length
  | none => 0

/-- `component.xs?.length || 0` as used by `isWrapperLike` and
`hasProps`; it coincides with `listLength`. -/
def optLength (list : Option (List String)) : Nat :=
  (list.map List.length).getD 0

/-- Deduplication keeping first occurrences, the behavior of a JavaScript
`Set` built from a list (`new Set(xs)` iterates in first-insertion
order). -/
def firstDedup (l : List String) : List String :=
  l.foldl (fun acc x => if x ∈ acc then acc else acc ++ [x]) []

/-- Splitting a character stream at separator characters, keeping only
the non-empty segments: the combined effect of `split` on a
one-character-class regex followed by `filter(Boolean)` — whether the
regex collapses separator runs (`+`) or not, the empty segments are
dropped by the filter, so only the non-empty segments remain. -/
def splitSegments (sep : Char → Bool) : List Char → List Char → List String
  | [], acc => if acc.isEmpty then [] else [String.mk acc.reverse]
  | c :: rest, acc =>
    if sep c then
      (if acc.isEmpty then [] else [String.mk acc.reverse]) ++
        splitSegments sep rest []
    else splitSegments sep rest (c :: acc)

/-- `trim` on the character data (whitespace stripped from both ends). -/
def trimString (s : String) : String :=
  String.mk (((s.data.dropWhile Char.isWhitespace).reverse.dropWhile
    Char.isWhitespace).reverse)

/-- `countNonEmptyLines` from src/similarity.js: split into lines, trim
each, count the non-blank ones.  (`splitSegments` already drops empty
segments, which the source's `filter(Boolean)` would drop after the
trim anyway.) -/
def countNonEmptyLines (source : String) : Nat :=
  (((splitSegments (fun c => c = '\n') source.data []).map trimString).filter
    fun line => line ≠ "").length

/-- `hasProps` from src/similarity.js. -/
def hasProps (component : Component) : Bool :=
  optLength (component.props.bind Props.names)
    + (component.props.map Props.spreads).getD 0 > 0

/-- `isWrapperLike` from src/similarity.js. -/
def isWrapperLike (component : Component) : Bool :=
  if component.isWrapper then true
  else
    let tiny := countNonEmptyLines component.source ≤ 8
    let shallowTree := (firstDedup (component.jsxTags.getD [])).length ≤ 2
    let hasPropSurface := hasProps component
    let noLogic := optLength component.logicTokens + optLength component.hooks = 0
    let limitedText := optLength component.textNodes ≤ 2
    tiny && shallowTree && hasPropSurface && noLogic && limitedText

/-- `dominantTag` from src/similarity.js: the most frequent JSX tag, ties
resolved to the first-seen tag (object keys are kept in insertion order
and the sort by count is stable). -/
def dominantTag (component : Component) : Option String :=
  let tags := component.jsxTags.getD []
  if tags.isEmpty then none
  else
    let counts := (firstDedup tags).map fun tag => (tag, tags.count tag)
    (counts.foldl
      (fun best p =>
        match best with
        | none => some p
        | some q => if p.2 > q.2 then some p else some q)
      none).map Prod.fst

/-- `componentSignal` from src/similarity.js: distinct-count of each of
five metadata lists, each capped at 2, summed. -/
def componentSignal (component : Component) : Nat :=
  let buckets :=
    [(firstDedup (component.logicTokens.getD [])).length,
     (firstDedup (component.hooks.getD [])).length,
     (firstDedup (component.classNames.getD [])).length,
     (firstDedup (component.textNodes.getD [])).length,
     (firstDedup ((component.props.bind Props.names).getD [])).length]
  buckets.foldl (fun acc size => acc + min size 2) 0

/-- `differentWrappedBases` from src/similarity.js. -/
def differentWrappedBases (refsA refsB : Option (List String)) : Bool :=
  let ra := refsA.getD []
  let rb := refsB.getD []
  if ra.isEmpty || rb.isEmpty then false
  else !rb.any fun ref => ref ∈ ra

/-- `compositionSuppression` from src/similarity.js. -/
def compositionSuppression (compA compB : Component) : Option String :=
  let refsA := compA.componentRefs.getD []
  let refsB := compB.componentRefs.getD []
  if compB.name ∈ refsA || compA.name ∈ refsB then some "component-composition"
  else none

/-- `wrapperSuppression` from src/similarity.js.  (`baseA && baseA ===
baseB` is modelled as `baseA.isSome && baseA = baseB`; the two differ
only when a JSX tag is the empty string, which the extractor never
produces.) -/
def wrapperSuppression (compA compB : Component) : Option String :=
  if !(isWrapperLike compA && isWrapperLike compB) then none
  else if differentWrappedBases compA.componentRefs compB.componentRefs then
    some "wrapper-different-base"
  else
    let baseA := dominantTag compA
    let baseB := dominantTag compB
    let sharedBase := baseA.isSome && baseA = baseB
    let noCustomLogic :=
      listLength compA.logicTokens + listLength compB.logicTokens = 0 &&
      listLength compA.hooks + listLength compB.hooks = 0
    let leanText := listLength compA.textNodes + listLength compB.textNodes ≤ 3
    let leanLiterals := listLength compA.literals + listLength compB.literals ≤ 6
    if sharedBase || (noCustomLogic && leanText && leanLiterals) then
      some "wrapper-specialization"
    else none

/-- `lowSignalSuppression` from src/similarity.js. -/
def lowSignalSuppression (compA compB : Component) : Option String :=
  let shortEnough :=
    countNonEmptyLines compA.source ≤ 16 && countNonEmptyLines compB.source ≤ 16
  if !shortEnough then none
  else
    let propSurface := hasProps compA || hasProps compB
    let wrapperish := isWrapperLike compA || isWrapperLike compB
    if !propSurface && !wrapperish then none
    else
      let signalA := componentSignal compA
      let signalB := componentSignal compB
      if signalA ≤ 2 && signalB ≤ 2 then some "low-signal-pair" else none

/-- `suppressPair` from src/similarity.js: the first suppression reason
produced, in order composition, wrapper, low-signal. -/
def suppressPair (entryA entryB : Entry) : Option String :=
  match compositionSuppression entryA.component entryB.component with
  | some r => some r
  | none =>
    match wrapperSuppression entryA.component entryB.component with
    | some r => some r
    | none => lowSignalSuppression entryA.component entryB.component

/-! ## Path distance gate (src/similarity.js) -/

/-- `splitDirs` from src/similarity.js: split on runs of slashes or
backslashes, drop empty segments, drop the filename. -/
def splitDirs (filePath : String) : List String :=
  if filePath = "" then []
  else (splitSegments (fun c => c = '/' || c = '\\') filePath.data []).dropLast

/-- The loop of `pathDistance`, walking the two directory segment lists
from the end (the lists arrive reversed) and returning the 1-based depth
of the first divergence — also when one list runs out first — and 0 when
both are exhausted together. -/
def divergeDepth : List String → List String → Nat → Nat
  | [], [], _ => 0
  | [], _ :: _, i => i
  | _ :: _, [], i => i
  | x :: xs, y :: ys, i => if x = y then divergeDepth xs ys (i + 1) else i

/-- `pathDistance` from src/similarity.js. -/
def pathDistance (pathA pathB : String) : Nat :=
  divergeDepth (splitDirs pathA).reverse (splitDirs pathB).reverse 1

/-- `shouldSkipByPath` from src/similarity.js. -/
def shouldSkipByPath (pathA pathB : String) (config : Config) : Bool :=
  let minDistance := config.minPathDistance.getD 0
  if minDistance ≤ 0 then false
  else (pathDistance pathA pathB : ℚ) < minDistance

/-! ## Label classifier (labels.js)

Hint strings come from the i18n message catalogs (src/i18n/en.js and
friends), which are not among the available sources; per the spec each
assigned label carries one fixed, localizable hint string, so the hints
are modelled as fixed distinct placeholder constants. -/

/-- Modelled from the spec: the fixed hint string attached to each label
(§4.5); the per-language catalogs are external, so one placeholder
constant per label stands for `i18n.hintWrapper` etc. -/
def hintWrapper : String := "hint-wrapper"

/-- Modelled from the spec: the `style-duplicate` hint string. -/
def hintStyle : String := "hint-style"

/-- Modelled from the spec: the `logic-duplicate` hint string. -/
def hintLogic : String := "hint-logic"

/-- Modelled from the spec: the `copy-paste-variant` hint string. -/
def hintCopy : String := "hint-copy"

/-- Modelled from the spec: the `prop-parameterizable` hint string. -/
def hintProp : String := "hint-prop"

/-- Modelled from the spec: the `forked-clone` hint string. -/
def hintFork : String := "hint-fork"

/-- `overlap` from labels.js on two materialized arrays: 0 when either
array is empty, otherwise distinct-intersection size over the larger
distinct size. -/
def overlap (listA listB : List String) : ℚ :=
  if listA.isEmpty || listB.isEmpty then 0
  else
    let a := firstDedup listA
    let b := firstDedup listB
    let intersection := (a.filter fun item => item ∈ b).length
    (intersection : ℚ) / (max a.length b.length : ℚ)

/-- `overlap` as invoked by `buildContext` on raw metadata fields: the
source reads `.length` on both arguments with no default, so an absent
field makes it throw (`none` here) instead of returning a number. -/
def overlapChecked (listA listB : Option (List String)) : Option ℚ :=
  match listA, listB with
  | some a, some b => some (overlap a b)
  | _, _ => none

/-- `tokenize` from labels.js: lower-case, split on runs of non-word
characters (`\W` is anything but `[A-Za-z0-9_]`), drop empty tokens. -/
def tokenize (text : String) : List String :=
  splitSegments (fun c => !(c.isAlphanum || c = '_'))
    (text.data.map Char.toLower) []

/-- `textOverlap` from labels.js. -/
def textOverlap (a b : String) : ℚ :=
  overlap (tokenize a) (tokenize b)

/-- `lineCount` from labels.js: `split('\n').length`, which is the
number of newline characters plus one. -/
def lineCount (text : String) : Nat :=
  (text.data.filter fun c => c = '\n').length + 1

/-- `isDisabled` from labels.js. -/
def isDisabled (config : Config) (label : String) : Bool :=
  config.disableAnalyses.contains label

/-- `intersect` from labels.js: distinct elements of `listA` also in
`listB`, in first-seen order. -/
def intersect (listA listB : List String) : List String :=
  firstDedup (listA.filter fun item => item ∈ listB)

/-- `difference` from labels.js. -/
def difference (list subtract : List String) : List String :=
  list.filter fun item => item ∉ subtract

/-- The context object built by `buildContext` in labels.js. -/
structure LabelContext where
  entryA : Entry
  entryB : Entry
  similarity : ℝ
  config : Config
  logicOverlap : ℚ
  literalOverlap : ℚ
  styleSimilarity : ℝ
  tokenOverlap : ℚ
  lineDiff : Nat
  hasProps : Bool
  hasStyles : Bool
  stylePathsA : List String
  stylePathsB : List String
  hasCssInJsA : Bool
  hasCssInJsB : Bool

/-- `buildContext` from labels.js.  The two `overlap` calls throw when a
`logicTokens` or `literals` field is absent, modelled by `none`; every
other consumed list is defaulted. -/
noncomputable def buildContext (entryA entryB : Entry) (similarity : ℝ)
    (config : Config) : Option LabelContext :=
  match overlapChecked entryA.component.logicTokens entryB.component.logicTokens,
      overlapChecked entryA.component.literals entryB.component.literals with
  | some logicOverlap, some literalOverlap =>
    some
    { entryA := entryA
      entryB := entryB
      similarity := similarity
      config := config
      logicOverlap := logicOverlap
      literalOverlap := literalOverlap
      styleSimilarity := cosine entryA.styleVec entryB.styleVec
      tokenOverlap := textOverlap entryA.component.source entryB.component.source
      lineDiff :=
        ((lineCount entryA.component.source : Int)
          - (lineCount entryB.component.source : Int)).natAbs
      hasProps :=
        optLength (entryA.component.props.bind Props.names) > 0 &&
        optLength (entryB.component.props.bind Props.names) > 0
      hasStyles := entryA.hasStyles || entryB.hasStyles
      stylePathsA := entryA.stylePaths
      stylePathsB := entryB.stylePaths
      hasCssInJsA := entryA.hasCssInJs
      hasCssInJsB := entryB.hasCssInJs }
  | _, _ => none

/-- A label rule's result: the label and its hint. -/
structure CheckResult where
  label : String
  hint : String

/-- `wrapperCheck` from labels.js. -/
def wrapperCheck (ctx : LabelContext) : Option CheckResult :=
  if isDisabled ctx.config "wrapper-duplicate" then none
  else if ctx.entryA.component.isWrapper && ctx.entryB.component.isWrapper then
    some { label := "wrapper-duplicate", hint := hintWrapper }
  else none

/-- `styleCheck` from labels.js. -/
noncomputable def styleCheck (ctx : LabelContext) : Option CheckResult :=
  if isDisabled ctx.config "style-duplicate" then none
  else if !ctx.hasStyles then none
  else
    let sharedPaths := intersect ctx.stylePathsA ctx.stylePathsB
    let uniqueA := difference ctx.stylePathsA sharedPaths
    let uniqueB := difference ctx.stylePathsB sharedPaths
    let sharedOnly := !sharedPaths.isEmpty && !ctx.hasCssInJsA && !ctx.hasCssInJsB
    let onlySharedSources := sharedOnly && uniqueA.isEmpty && uniqueB.isEmpty
    if onlySharedSources then none
    else if 0.8 ≤ ctx.styleSimilarity then
      some { label := "style-duplicate", hint := hintStyle }
    else none

/-- `logicCheck` from labels.js. -/
def logicCheck (ctx : LabelContext) : Option CheckResult :=
  if isDisabled ctx.config "logic-duplicate" then none
  else if 0.6 ≤ ctx.logicOverlap then
    some { label := "logic-duplicate", hint := hintLogic }
  else none

/-- `copyCheck` from labels.js. -/
noncomputable def copyCheck (ctx : LabelContext) : Option CheckResult :=
  if isDisabled ctx.config "copy-paste-variant" then none
  else if 0.95 ≤ ctx.similarity ∨ 0.9 ≤ ctx.tokenOverlap then
    some { label := "copy-paste-variant", hint := hintCopy }
  else none

/-- `propCheck` from labels.js. -/
noncomputable def propCheck (ctx : LabelContext) : Option CheckResult :=
  if isDisabled ctx.config "prop-parameterizable" then none
  else if ((ctx.config.highSimilarityThreshold : ℝ) ≤ ctx.similarity)
      ∧ (0.4 ≤ ctx.literalOverlap ∨ ctx.hasProps) then
    some { label := "prop-parameterizable", hint := hintProp }
  else none

/-- `forkCheck` from labels.js: eligible only when the similarity meets
the minimum threshold, the labels accumulated so far are empty, and the
line counts differ by at least 4. -/
noncomputable def forkCheck (ctx : LabelContext) (labels : List String) :
    Option CheckResult :=
  if isDisabled ctx.config "forked-clone" then none
  else if ((ctx.config.similarityThreshold : ℝ) ≤ ctx.similarity)
      ∧ labels.isEmpty = true ∧ 4 ≤ ctx.lineDiff then
    some { label := "forked-clone", hint := hintFork }
  else none

/-- `labels` and `hints` accumulated by `labelPair`. -/
structure LabelResult where
  labels : List String
  hints : List String

/-- `runCheck` from labels.js: push the label, and the hint when
non-empty (every produced hint is a fixed non-empty string). -/
def runCheck (acc : LabelResult) (result : Option CheckResult) : LabelResult :=
  match result with
  | none => acc
  | some r =>
    { labels := acc.labels ++ [r.label]
      hints := acc.hints ++ (if r.hint = "" then [] else [r.hint]) }

/-- `labelPair` from labels.js: build the context (which throws — `none`
— when `logicTokens` or `literals` is absent on either side), run the
five independent rules in order, then the fork rule against the labels
collected so far. -/
noncomputable def labelPair (entryA entryB : Entry) (similarity : ℝ)
    (config : Config) : Option LabelResult :=
  (buildContext entryA entryB similarity config).map fun ctx =>
    let acc0 : LabelResult := { labels := [], hints := [] }
    let acc1 := runCheck acc0 (wrapperCheck ctx)
    let acc2 := runCheck acc1 (styleCheck ctx)
    let acc3 := runCheck acc2 (logicCheck ctx)
    let acc4 := runCheck acc3 (copyCheck ctx)
    let acc5 := runCheck acc4 (propCheck ctx)
    runCheck acc5 (forkCheck ctx acc5.labels)

/-! ## Pairwise similarity engine (src/similarity.js) -/

/-- `Number(sim.toFixed(4))`: rounding to four decimal places, idealized
as exact rounding of the real value to the nearest multiple of 1/10000
(`toFixed` rounds to nearest; the similarities in play are never exact
ties). -/
noncomputable def round4 (x : ℝ) : ℝ :=
  ((round (x * 10000) : ℤ) : ℝ) / 10000

/-- A reported pair: unit identities, rounded similarity, coarse
category, labels and hints. -/
structure Pair where
  a : String
  b : String
  similarity : ℝ
  category : String
  labels : List String
  hints : List String

/-- The run-level scorecard built by `buildScorecard`. -/
structure Scorecard where
  meanSimilarity : ℝ
  maxSimilarity : ℝ
  evaluatedPairs : Nat
  coveredComponents : Nat
  suppressedPairs : Nat
  suppressionReasons : List (String × Nat)
  minBestSimilarity : ℝ
  maxBestSimilarity : ℝ

/-- The mutable state threaded through the double loop of
`findSimilarities`.  `best` models the insertion-ordered
`bestByComponent` map and `suppressionReasons` the plain tally object. -/
structure SimState where
  pairs : List Pair
  best : List (String × ℝ)
  evaluatedPairs : Nat
  similaritySum : ℝ
  maxSimilarity : ℝ
  suppressedPairs : Nat
  suppressionReasons : List (String × Nat)

/-- The initial loop state of `findSimilarities`. -/
def initSimState : SimState :=
  { pairs := []
    best := []
    evaluatedPairs := 0
    similaritySum := 0
    maxSimilarity := 0
    suppressedPairs := 0
    suppressionReasons := [] }

/-- Lookup in an insertion-ordered association list (a JavaScript `Map`
or plain object keyed by strings). -/
def lookupAssoc {α : Type} (l : List (String × α)) (key : String) : Option α :=
  (l.find? fun p => p.1 = key).map Prod.snd

/-- Update in an insertion-ordered association list: replace the value
in place when present, append otherwise — `Map.prototype.set` and plain
object assignment both keep first-insertion order. -/
def setAssoc {α : Type} (l : List (String × α)) (key : String) (value : α) :
    List (String × α) :=
  if (l.find? fun p => p.1 = key).isSome then
    l.map fun p => if p.1 = key then (p.1, value) else p
  else l ++ [(key, value)]

/-- `trackBestSimilarity` from src/similarity.js. -/
noncomputable def trackBestSimilarity (best : List (String × ℝ))
    (componentId : String) (similarity : ℝ) : List (String × ℝ) :=
  let current := (lookupAssoc best componentId).getD 0
  if current < similarity then setAssoc best componentId similarity else best

/-- `suppressionReasons[reason] = (suppressionReasons[reason] || 0) + 1`. -/
def bumpReason (reasons : List (String × Nat)) (reason : String) :
    List (String × Nat) :=
  setAssoc reasons reason ((lookupAssoc reasons reason).getD 0 + 1)

/-- A suppressed pair: `suppressedPairs` incremented and the reason
tallied. -/
def bumpSuppressed (st : SimState) (reason : String) : SimState :=
  { st with
    suppressedPairs := st.suppressedPairs + 1
    suppressionReasons := bumpReason st.suppressionReasons reason }

/-- `compareEnabled` from `findSimilarities`: a non-empty
`config.compareGlobs` array. -/
def compareEnabled (config : Config) : Bool :=
  !config.compareGlobs.isEmpty

/-- `maxThreshold` from `findSimilarities`:
`config.maxSimilarityThreshold ?? 1`. -/
def maxThreshold (config : Config) : ℚ :=
  config.maxSimilarityThreshold.getD 1

/-- The recording of one evaluated pair into the running aggregates
(src/similarity.js lines 151–156): similarity sum, running maximum and
per-unit best, performed before any gate that inspects the similarity. -/
noncomputable def recordAggregates (st : SimState) (entryA entryB : Entry)
    (sim : ℝ) : SimState :=
  { st with
    evaluatedPairs := st.evaluatedPairs + 1
    similaritySum := st.similaritySum + sim
    maxSimilarity := if st.maxSimilarity < sim then sim else st.maxSimilarity
    best :=
      trackBestSimilarity
        (trackBestSimilarity st.best entryA.component.id sim)
        entryB.component.id sim }

/-- One iteration of the inner loop of `findSimilarities`, on the
entries at positions `i < j` of the enumeration: compare-mode filter,
similarity recording, threshold gate, max-threshold gate, path gate,
suppression heuristics, then labeling and appending the reported pair.
`none` models the run aborting because `labelPair` threw. -/
noncomputable def processPair (config : Config) (st : SimState)
    (ab : (Nat × Entry) × (Nat × Entry)) : Option SimState :=
  let entryA := ab.1.2
  let entryB := ab.2.2
  let aTarget := entryA.component.isCompareTarget
  let bTarget := entryB.component.isCompareTarget
  if compareEnabled config && !(xor aTarget bTarget) then
    some (bumpSuppressed st "compare-filter")
  else
    let sim := cosine entryA.vector entryB.vector
    let st1 := recordAggregates st entryA entryB sim
    if sim < ((config.similarityThreshold : ℚ) : ℝ) then some st1
    else if (1e-6 : ℝ) < sim - ((maxThreshold config : ℚ) : ℝ) then
      some (bumpSuppressed st1 "over-max-threshold")
    else if shouldSkipByPath entryA.component.filePath entryB.component.filePath config then
      some (bumpSuppressed st1 "near-path")
    else
      match suppressPair entryA entryB with
      | some reason => some (bumpSuppressed st1 reason)
      | none =>
        (labelPair entryA entryB sim config).map fun result =>
          { st1 with
            pairs := st1.pairs ++
              [{ a := entryA.component.id
                 b := entryB.component.id
                 similarity := round4 sim
                 category :=
                   if ((config.highSimilarityThreshold : ℚ) : ℝ) ≤ sim then
                     "almost-identical"
                   else "near-duplicate"
                 labels := result.labels
                 hints := result.hints }] }

/-- The unordered pairs enumerated by the double loop of
`findSimilarities`, each entry tagged with its position: `i` ascending,
and for each `i` every `j > i` ascending. -/
def entryPairs (entries : List Entry) : List ((Nat × Entry) × (Nat × Entry)) :=
  let en := entries.enum
  en.flatMap fun a => (en.filter fun b => a.1 < b.1).map fun b => (a, b)

/-- The stateful filter inside `limitMatches`: walk the sorted pairs,
keeping a pair only while neither endpoint has reached the limit, and
bump both endpoints' counts on keeping it. -/
def limitFilter (limit : ℚ) (counts : List (String × Nat)) :
    List Pair → List Pair
  | [] => []
  | pair :: rest =>
    let aCount := (lookupAssoc counts pair.a).getD 0
    let bCount := (lookupAssoc counts pair.b).getD 0
    if limit ≤ (aCount : ℚ) ∨ limit ≤ (bCount : ℚ) then
      limitFilter limit counts rest
    else
      pair ::
        limitFilter limit
          (setAssoc (setAssoc counts pair.a (aCount + 1)) pair.b (bCount + 1))
          rest

/-- The descending stable sort of `limitMatches`
(`sort((a, b) => b.similarity - a.similarity)`; ECMAScript sorts are
stable). -/
noncomputable def sortPairs (pairs : List Pair) : List Pair :=
  pairs.mergeSort fun p q => decide (q.similarity ≤ p.similarity)

/-- `limitMatches` from src/similarity.js. -/
noncomputable def limitMatches (pairs : List Pair) (limit : Option ℚ) :
    List Pair :=
  match limit with
  | none => sortPairs pairs
  | some l => limitFilter l [] (sortPairs pairs)

/-- `Math.min` over a spread non-empty array (0 on an empty one, a case
the source never reaches). -/
noncomputable def listMinR : List ℝ → ℝ
  | [] => 0
  | x :: xs => xs.foldl min x

/-- `Math.max` over a spread non-empty array (0 on an empty one, a case
the source never reaches). -/
noncomputable def listMaxR : List ℝ → ℝ
  | [] => 0
  | x :: xs => xs.foldl max x

/-- `buildScorecard` from src/similarity.js. -/
noncomputable def buildScorecard (best : List (String × ℝ))
    (evaluatedPairs : Nat) (similaritySum maxSimilarity : ℝ)
    (suppressedPairs : Nat) (suppressionReasons : List (String × Nat)) :
    Scorecard :=
  let bestValues := best.map Prod.snd
  { meanSimilarity :=
      if evaluatedPairs = 0 then 0 else round4 (similaritySum / evaluatedPairs)
    maxSimilarity := round4 maxSimilarity
    evaluatedPairs := evaluatedPairs
    coveredComponents := bestValues.length
    suppressedPairs := suppressedPairs
    suppressionReasons := suppressionReasons
    minBestSimilarity := if bestValues.isEmpty then 0 else round4 (listMinR bestValues)
    maxBestSimilarity := if bestValues.isEmpty then 0 else round4 (listMaxR bestValues) }

/-- The result of `findSimilarities`. -/
structure SimResult where
  pairs : List Pair
  scorecard : Scorecard

/-- `findSimilarities` from src/similarity.js: fold the pair processing
over every enumerated pair, apply `limitMatches`, and build the
scorecard from the final aggregates.  `none` models the run aborting on
a thrown exception. -/
noncomputable def findSimilarities (entries : List Entry) (config : Config) :
    Option SimResult := do
  let st ← (entryPairs entries).foldlM (processPair config) initSimState
  pure
    { pairs := limitMatches st.pairs config.limit
      scorecard :=
        buildScorecard st.best st.evaluatedPairs st.similaritySum
          st.maxSimilarity st.suppressedPairs st.suppressionReasons }

/-! ## Derived views used by the theorems -/

/-- The result of the five context-only label rules, run in source
order; `forkCheck` receives exactly these labels. -/
noncomputable def preliminaryResult (ctx : LabelContext) : LabelResult :=
  runCheck
    (runCheck
      (runCheck
        (runCheck (runCheck { labels := [], hints := [] } (wrapperCheck ctx))
          (styleCheck ctx))
        (logicCheck ctx))
      (copyCheck ctx))
    (propCheck ctx)

/-- Whether an enumerated pair is removed by the compare-mode filter
before any similarity is computed. -/
def compareFiltered (config : Config) (ab : (Nat × Entry) × (Nat × Entry)) : Bool :=
  compareEnabled config &&
    !(xor ab.1.2.component.isCompareTarget ab.2.2.component.isCompareTarget)

/-- The enumerated pairs whose similarity is recorded into the running
aggregates: all pairs surviving the compare-mode filter. -/
def recordedPairs (entries : List Entry) (config : Config) :
    List ((Nat × Entry) × (Nat × Entry)) :=
  (entryPairs entries).filter fun ab => !compareFiltered config ab

/-- The cosine similarity of an enumerated pair's combined vectors. -/
noncomputable def pairSim (ab : (Nat × Entry) × (Nat × Entry)) : ℝ :=
  cosine ab.1.2.vector ab.2.2.vector

/-- The running-maximum update of the loop. -/
noncomputable def maxStep (m : ℝ) (ab : (Nat × Entry) × (Nat × Entry)) : ℝ :=
  if m < pairSim ab then pairSim ab else m

/-- Replace each metadata list that the source defaults (`|| []`,
optional chaining) by its explicit defaulted value; `logicTokens` and
`literals`, which `buildContext` reads without a default, are left
untouched. -/
def defaultOtherLists (c : Component) : Component :=
  { c with
    componentRefs := some (c.componentRefs.getD [])
    hooks := some (c.hooks.getD [])
    jsxTags := some (c.jsxTags.getD [])
    textNodes := some (c.textNodes.getD [])
    classNames := some (c.classNames.getD [])
    props := some
      { names := some ((c.props.bind Props.names).getD [])
        spreads := (c.props.map Props.spreads).getD 0 } }

/-- Apply a component transformation to an entry. -/
def mapComponent (f : Component → Component) (e : Entry) : Entry :=
  { e with component := f e.component }

/-- Replace a possibly-absent `props` object by its explicit defaulted
value, mirroring the source's `component.props?.names?.length || 0` and
`component.props?.spreads || 0` reads. -/
def defaultProps (c : Component) : Component :=
  { c with
    props := some
      { names := some ((c.props.bind Props.names).getD [])
        spreads := (c.props.map Props.spreads).getD 0 } }

/-! ## Concrete fixtures -/

/-- A backend stub: every text embeds to the one-dimensional vector
`[1]`. -/
noncomputable def embedStub : String → List ℝ := fun _ => [1]

/-- A complete cached entry whose fingerprint is `"fp"`. -/
noncomputable def cachedHitEntry : CachedEntry :=
  { fingerprint := some "fp"
    codeVec := some [1]
    styleVec := some [1]
    structureVec := some [1]
    holisticVec := some [1]
    filePath := some "f.js" }

/-- A cached entry fingerprinted over the code representation `"a"`. -/
noncomputable def cachedStaleEntry : CachedEntry :=
  { fingerprint := some (fingerprintRepresentation "a" "s" "t" "u" "v")
    codeVec := some [1]
    styleVec := some [1]
    structureVec := some [1]
    holisticVec := some [1]
    filePath := some "f.js" }

/-- A plain component with no wrapper traits and empty metadata. -/
def compX : Component :=
  { id := "X"
    name := "X"
    filePath := "a/x.js"
    source := ""
    isCompareTarget := false
    isWrapper := false
    componentRefs := some []
    logicTokens := some []
    hooks := some []
    jsxTags := some []
    textNodes := some []
    literals := some []
    classNames := some []
    props := none }

/-- A second plain component. -/
def compY : Component :=
  { compX with id := "Y", name := "Y", filePath := "b/y.js" }

/-- An entry whose combined vector is `[21, 20]` (norm 29). -/
noncomputable def entX : Entry :=
  { component := compX
    vector := [21, 20]
    codeVec := []
    styleVec := []
    structureVec := []
    holisticVec := []
    styleText := ""
    stylePaths := []
    hasCssInJs := false
    hasStyles := false }

/-- An entry whose combined vector is `[1, 0]`; the cosine similarity
with `entX` is exactly 21/29. -/
noncomputable def entY : Entry :=
  { entX with component := compY, vector := [1, 0] }

/-- A configuration whose minimum similarity threshold is exactly 21/29
(≈ 0.72414, a value with a non-terminating 4-decimal expansion). -/
def cfg1 : Config :=
  { similarityThreshold := 21/29
    highSimilarityThreshold := 9/10 }

/-- The configuration `cfg1` with compare mode active. -/
def cfg3 : Config :=
  { cfg1 with compareGlobs := ["x"] }

/-- The label context that `buildContext` builds for `entX`, `entY` at
similarity 21/29 under `cfg1`. -/
noncomputable def ctxXY : LabelContext :=
  { entryA := entX
    entryB := entY
    similarity := (21 : ℝ)/29
    config := cfg1
    logicOverlap := 0
    literalOverlap := 0
    styleSimilarity := cosine entX.styleVec entY.styleVec
    tokenOverlap := 0
    lineDiff := 0
    hasProps := false
    hasStyles := false
    stylePathsA := []
    stylePathsB := []
    hasCssInJsA := false
    hasCssInJsB := false }

/-- The single pair reported by `findSimilarities [entX, entY] cfg1`:
its recorded similarity is `round4 (21/29) = 0.7241`, strictly below the
configured threshold 21/29. -/
noncomputable def pair1 : Pair :=
  { a := "X"
    b := "Y"
    similarity := 7241/10000
    category := "near-duplicate"
    labels := []
    hints := [] }

/-- The scorecard of `findSimilarities [entX, entY] cfg1`. -/
noncomputable def sc1 : Scorecard :=
  { meanSimilarity := 7241/10000
    maxSimilarity := 7241/10000
    evaluatedPairs := 1
    coveredComponents := 2
    suppressedPairs := 0
    suppressionReasons := []
    minBestSimilarity := 7241/10000
    maxBestSimilarity := 7241/10000 }

/-- The scorecard of `findSimilarities [entX, entY] cfg3`: the only
enumerated pair is removed by the compare-mode filter, so nothing is
recorded into the aggregates. -/
noncomputable def sc3 : Scorecard :=
  { meanSimilarity := 0
    maxSimilarity := 0
    evaluatedPairs := 0
    coveredComponents := 0
    suppressedPairs := 1
    suppressionReasons := [("compare-filter", 1)]
    minBestSimilarity := 0
    maxBestSimilarity := 0 }

/-- Vectors that cancel under equal weights: all four are non-empty and
all weights positive, yet the weighted sum is the zero vector. -/
noncomputable def cancellingVectors : FourVectors :=
  { codeVec := [1]
    styleVec := [1]
    structureVec := [-1]
    holisticVec := [-1] }

/-- Equal weights 1/4 for all four parts. -/
def quarterWeights : PartWeights :=
  { code := some (1/4)
    style := some (1/4)
    struct := some (1/4)
    holistic := some (1/4) }

/-- All-ones vectors for the combiner witness. -/
noncomputable def onesVectors : FourVectors :=
  { codeVec := [1]
    styleVec := [1]
    structureVec := [1]
    holisticVec := [1] }

/-- A configuration with a minimum folder distance of 1. -/
def cfgNear : Config :=
  { similarityThreshold := 1/2
    highSimilarityThreshold := 9/10
    minPathDistance := some 1 }

/-- `compX` relocated to the directory `d`. -/
def compP : Component :=
  { compX with filePath := "d/p.js" }

/-- `compY` relocated to the same directory `d`. -/
def compQ : Component :=
  { compY with filePath := "d/q.js" }

/-- `entX` with its component in directory `d`. -/
noncomputable def entP : Entry :=
  { entX with component := compP }

/-- `entY` with its component in directory `d`. -/
noncomputable def entQ : Entry :=
  { entY with component := compQ }

/-! ## Helper lemmas -/

/-- Strings with equal character data are equal. -/
theorem string_data_inj {s t : String} (h : s.data = t.data) : s = t :=
  congrArg String.mk h

/-- The character stream of a fingerprint, as a flat list append. -/
theorem fingerprintRepresentation_data (c s t st h : String) :
    (fingerprintRepresentation c s t st h).data =
      c.data ++ (s.data ++ (t.data ++ (st.data ++ h.data))) := by
  simp [fingerprintRepresentation, String.data_append]

/-- Changing only the code representation changes the fingerprint. -/
theorem fingerprint_ne_of_codeRep_ne {c c' : String} (s t st h : String)
    (hne : c ≠ c') :
    fingerprintRepresentation c s t st h ≠ fingerprintRepresentation c' s t st h := by
  intro heq
  apply hne
  have hdata := congrArg String.data heq
  rw [fingerprintRepresentation_data, fingerprintRepresentation_data] at hdata
  exact string_data_inj (List.append_cancel_right hdata)

/-- Changing only the style representation changes the fingerprint. -/
theorem fingerprint_ne_of_styleRep_ne (c : String) {s s' : String}
    (t st h : String) (hne : s ≠ s') :
    fingerprintRepresentation c s t st h ≠ fingerprintRepresentation c s' t st h := by
  intro heq
  apply hne
  have hdata := congrArg String.data heq
  rw [fingerprintRepresentation_data, fingerprintRepresentation_data] at hdata
  exact string_data_inj
    (List.append_cancel_right (List.append_cancel_left hdata))

/-- Changing only the raw style text changes the fingerprint. -/
theorem fingerprint_ne_of_styleText_ne (c s : String) {t t' : String}
    (st h : String) (hne : t ≠ t') :
    fingerprintRepresentation c s t st h ≠ fingerprintRepresentation c s t' st h := by
  intro heq
  apply hne
  have hdata := congrArg String.data heq
  rw [fingerprintRepresentation_data, fingerprintRepresentation_data] at hdata
  exact string_data_inj
    (List.append_cancel_right
      (List.append_cancel_left (List.append_cancel_left hdata)))

/-- Changing only the structure representation changes the fingerprint. -/
theorem fingerprint_ne_of_structureRep_ne (c s t : String) {st st' : String}
    (h : String) (hne : st ≠ st') :
    fingerprintRepresentation c s t st h ≠ fingerprintRepresentation c s t st' h := by
  intro heq
  apply hne
  have hdata := congrArg String.data heq
  rw [fingerprintRepresentation_data, fingerprintRepresentation_data] at hdata
  exact string_data_inj
    (List.append_cancel_right
      (List.append_cancel_left
        (List.append_cancel_left (List.append_cancel_left hdata))))

/-- Changing only the holistic representation changes the fingerprint. -/
theorem fingerprint_ne_of_holisticRep_ne (c s t st : String) {h h' : String}
    (hne : h ≠ h') :
    fingerprintRepresentation c s t st h ≠ fingerprintRepresentation c s t st h' := by
  intro heq
  apply hne
  have hdata := congrArg String.data heq
  rw [fingerprintRepresentation_data, fingerprintRepresentation_data] at hdata
  exact string_data_inj
    (List.append_cancel_left
      (List.append_cancel_left
        (List.append_cancel_left (List.append_cancel_left hdata))))

/-! ## C4 — fingerprint over the concatenation -/

/-- C4, counterexample: the digest is taken over the plain ordered
concatenation of the five inputs with no separator, so two units that
distribute the same characters differently across the slots — here
`('ab','')` versus `('a','b')` in the first two slots — produce the same
fingerprint, contradicting the claim that they never collide.  (sha1 is
a function of its input stream, so equal streams give equal digests in
the source as well.) -/
theorem fingerprint_slot_redistribution_collides :
    fingerprintRepresentation "ab" "" "" "" "" =
      fingerprintRepresentation "a" "b" "" "" "" := rfl

/-- C4 (amended): `fingerprintRepresentation` is a deterministic digest
over the ordered concatenation of its five string inputs; changing any
single input while holding the other four fixed changes the fingerprint
(in particular an empty slot is present-but-empty in its position), but
two inputs whose slots concatenate to the same character stream collide. -/
theorem fingerprintRepresentation_single_slot_sensitivity :
    (∀ c c' s t st h, c ≠ c' →
      fingerprintRepresentation c s t st h ≠ fingerprintRepresentation c' s t st h) ∧
    (∀ c s s' t st h, s ≠ s' →
      fingerprintRepresentation c s t st h ≠ fingerprintRepresentation c s' t st h) ∧
    (∀ c s t t' st h, t ≠ t' →
      fingerprintRepresentation c s t st h ≠ fingerprintRepresentation c s t' st h) ∧
    (∀ c s t st st' h, st ≠ st' →
      fingerprintRepresentation c s t st h ≠ fingerprintRepresentation c s t st' h) ∧
    (∀ c s t st h h', h ≠ h' →
      fingerprintRepresentation c s t st h ≠ fingerprintRepresentation c s t st h') :=
  ⟨fun _ _ s t st h hne => fingerprint_ne_of_codeRep_ne s t st h hne,
   fun c _ _ t st h hne => fingerprint_ne_of_styleRep_ne c t st h hne,
   fun c s _ _ st h hne => fingerprint_ne_of_styleText_ne c s st h hne,
   fun c s t _ _ h hne => fingerprint_ne_of_structureRep_ne c s t h hne,
   fun c s t st _ _ hne => fingerprint_ne_of_holisticRep_ne c s t st hne⟩

/-- C4, witness: each single-slot sensitivity conjunct applied at
concrete strings. -/
theorem fingerprintRepresentation_single_slot_sensitivity_witness :
    fingerprintRepresentation "a" "s" "t" "u" "v" ≠
      fingerprintRepresentation "b" "s" "t" "u" "v" ∧
    fingerprintRepresentation "a" "s" "t" "u" "v" ≠
      fingerprintRepresentation "a" "x" "t" "u" "v" ∧
    fingerprintRepresentation "a" "s" "t" "u" "v" ≠
      fingerprintRepresentation "a" "s" "x" "u" "v" ∧
    fingerprintRepresentation "a" "s" "t" "u" "v" ≠
      fingerprintRepresentation "a" "s" "t" "x" "v" ∧
    fingerprintRepresentation "a" "s" "t" "u" "v" ≠
      fingerprintRepresentation "a" "s" "t" "u" "x" :=
  ⟨fingerprintRepresentation_single_slot_sensitivity.1 "a" "b" "s" "t" "u" "v"
      (by decide),
   fingerprintRepresentation_single_slot_sensitivity.2.1 "a" "s" "x" "t" "u" "v"
      (by decide),
   fingerprintRepresentation_single_slot_sensitivity.2.2.1 "a" "s" "t" "x" "u" "v"
      (by decide),
   fingerprintRepresentation_single_slot_sensitivity.2.2.2.1 "a" "s" "t" "u" "x" "v"
      (by decide),
   fingerprintRepresentation_single_slot_sensitivity.2.2.2.2 "a" "s" "t" "u" "v" "x"
      (by decide)⟩

/-! ## C9 — loadCache never fails the caller -/

/-- C9: `loadCache` is total and degrades to the empty valid store
`{ version: CACHE_VERSION, entries: {} }` on every abnormal input: no
cache path (absent or empty string), missing file, content that neither
msgpack decoding nor JSON parsing accepts (the caught-and-warned path,
modelled by `readResult = none`), a version other than `CACHE_VERSION`,
or a missing `entries` field; otherwise it returns the parsed store. -/
theorem loadCache_degrades_to_empty_store :
    (∀ fileExists readResult, loadCache none fileExists readResult = emptyStore) ∧
    (∀ fileExists readResult, loadCache (some "") fileExists readResult = emptyStore) ∧
    (∀ p readResult, loadCache (some p) false readResult = emptyStore) ∧
    (∀ p, loadCache (some p) true none = emptyStore) ∧
    (∀ p parsed, parsed.version ≠ some CACHE_VERSION →
      loadCache (some p) true (some parsed) = emptyStore) ∧
    (∀ p parsed, parsed.entries = none →
      loadCache (some p) true (some parsed) = emptyStore) ∧
    (∀ p parsed, p ≠ "" → parsed.version = some CACHE_VERSION →
      parsed.entries ≠ none → loadCache (some p) true (some parsed) = parsed) := by
  refine ⟨fun _ _ => rfl, fun _ _ => rfl, ?_, ?_, ?_, ?_, ?_⟩
  · intro p readResult
    by_cases hp : p = "" <;> simp [loadCache, hp]
  · intro p
    by_cases hp : p = "" <;> simp [loadCache, hp]
  · intro p parsed hv
    by_cases hp : p = "" <;> simp [loadCache, hp, bne_iff_ne, hv]
  · intro p parsed he
    by_cases hp : p = "" <;> simp [loadCache, hp, he]
  · intro p parsed hp hv he
    simp [loadCache, hp, hv, Option.isNone_iff_eq_none, he]

/-- C9, witness: `loadCache` applied on a version-mismatched store, a
store missing its `entries` field, and a well-formed store. -/
theorem loadCache_degrades_to_empty_store_witness :
    loadCache (some "cache.bin") true (some { version := some 2, entries := some [] })
      = emptyStore ∧
    loadCache (some "cache.bin") true (some { version := some 1, entries := none })
      = emptyStore ∧
    loadCache (some "cache.bin") true (some { version := some 1, entries := some [] })
      = { version := some 1, entries := some [] } :=
  ⟨loadCache_degrades_to_empty_store.2.2.2.2.1 "cache.bin" _ (by decide),
   loadCache_degrades_to_empty_store.2.2.2.2.2.1 "cache.bin" _ rfl,
   loadCache_degrades_to_empty_store.2.2.2.2.2.2 "cache.bin" _ (by decide) rfl
     (by simp)⟩

/-! ## C2 — cache hit conditions -/

/-- Explicit characterization of `isCompleteCachedEntry`: the entry
exists, its stored fingerprint equals the freshly computed one, and all
four stored vectors are non-empty arrays. -/
theorem isCompleteCachedEntry_iff (entry : Option CachedEntry) (fp : String) :
    isCompleteCachedEntry entry fp = true ↔
      ∃ e, entry = some e ∧ e.fingerprint = some fp ∧
        (∃ l, e.codeVec = some l ∧ l ≠ []) ∧
        (∃ l, e.styleVec = some l ∧ l ≠ []) ∧
        (∃ l, e.structureVec = some l ∧ l ≠ []) ∧
        (∃ l, e.holisticVec = some l ∧ l ≠ []) := by
  cases entry with
  | none => simp [isCompleteCachedEntry]
  | some e =>
    obtain ⟨f, cv, sv, stv, hv, path⟩ := e
    by_cases hf : f = some fp
    · subst hf
      cases cv <;> cases sv <;> cases stv <;> cases hv <;>
        simp [isCompleteCachedEntry, List.isEmpty_iff]
    · simp [isCompleteCachedEntry, hf]

/-- The hit flag of the resolution step is the completeness check. -/
theorem resolveComponentVectors_hit (cached : Option CachedEntry) (fp : String)
    (embed : String → List ℝ) (cr sr str hr : String) :
    (resolveComponentVectors cached fp embed cr sr str hr).hit =
      isCompleteCachedEntry cached fp := by
  simp [resolveComponentVectors]

/-- C2: a component is counted as a complete cache hit (the source's
`cacheStats.hits` branch) exactly when the stored fingerprint equals the
freshly computed fingerprint and all four stored vectors are non-empty
arrays; on a hit no text is sent to the backend and all four resolved
vectors are the stored ones; every other entry takes the miss branch,
and in particular mutating the code representation while holding the
other four inputs fixed changes the fingerprint, so the stale entry is
never served as a hit and the code representation is freshly embedded. -/
theorem cache_hit_iff_fingerprint_match_and_full_vectors :
    (∀ cached fp embed cr sr str hr,
      (resolveComponentVectors cached fp embed cr sr str hr).hit = true ↔
        ∃ e, cached = some e ∧ e.fingerprint = some fp ∧
          (∃ l, e.codeVec = some l ∧ l ≠ []) ∧
          (∃ l, e.styleVec = some l ∧ l ≠ []) ∧
          (∃ l, e.structureVec = some l ∧ l ≠ []) ∧
          (∃ l, e.holisticVec = some l ∧ l ≠ [])) ∧
    (∀ cached fp embed cr sr str hr e, cached = some e →
      (resolveComponentVectors cached fp embed cr sr str hr).hit = true →
      (resolveComponentVectors cached fp embed cr sr str hr).embedCalls = [] ∧
      e.codeVec = some (resolveComponentVectors cached fp embed cr sr str hr).codeVec ∧
      e.styleVec = some (resolveComponentVectors cached fp embed cr sr str hr).styleVec ∧
      e.structureVec =
        some (resolveComponentVectors cached fp embed cr sr str hr).structureVec ∧
      e.holisticVec =
        some (resolveComponentVectors cached fp embed cr sr str hr).holisticVec) ∧
    (∀ embed cr sr str hr e c c' s t st h, c ≠ c' →
      e.fingerprint = some (fingerprintRepresentation c s t st h) →
      (resolveComponentVectors (some e) (fingerprintRepresentation c' s t st h)
          embed cr sr str hr).hit = false ∧
      (resolveComponentVectors (some e) (fingerprintRepresentation c' s t st h)
          embed cr sr str hr).codeVec = embed cr ∧
      (resolveComponentVectors (some e) (fingerprintRepresentation c' s t st h)
          embed cr sr str hr).embedCalls ≠ []) := by
  refine ⟨?_, ?_, ?_⟩
  · intro cached fp embed cr sr str hr
    rw [resolveComponentVectors_hit]
    exact isCompleteCachedEntry_iff cached fp
  · intro cached fp embed cr sr str hr e hc hhit
    subst hc
    rw [resolveComponentVectors_hit] at hhit
    obtain ⟨e', he', hf, ⟨lc, hlc, -⟩, ⟨ls, hls, -⟩, ⟨lst, hlst, -⟩, ⟨lh, hlh, -⟩⟩ :=
      (isCompleteCachedEntry_iff _ _).mp hhit
    obtain rfl : e' = e := by injection he' with h; exact h.symm
    simp [resolveComponentVectors, hhit, hlc, hls, hlst, hlh]
  · intro embed cr sr str hr e c c' s t st h hne hfp
    have hdiff : e.fingerprint ≠ some (fingerprintRepresentation c' s t st h) := by
      rw [hfp]
      intro hcontra
      exact fingerprint_ne_of_codeRep_ne s t st h hne (by injection hcontra)
    have hmatch :
        (decide (e.fingerprint = some (fingerprintRepresentation c' s t st h))) =
          false := by simpa using hdiff
    have hincomplete :
        isCompleteCachedEntry (some e) (fingerprintRepresentation c' s t st h) =
          false := by
      rw [Bool.eq_false_iff]
      intro hcontra
      rw [isCompleteCachedEntry_iff] at hcontra
      obtain ⟨e', he', hf, -⟩ := hcontra
      obtain rfl : e = e' := by injection he'
      exact hdiff hf
    refine ⟨?_, ?_, ?_⟩ <;>
      simp [resolveComponentVectors, hincomplete, hmatch]

/-- C2, witness: the hit and miss conjuncts applied to concrete cached
entries — a complete entry with matching fingerprint `"fp"` is reused
with no backend calls, and an entry fingerprinted over code
representation `"a"` is a miss against the fingerprint over `"b"`, with
the code representation freshly embedded. -/
theorem cache_hit_iff_fingerprint_match_and_full_vectors_witness :
    (resolveComponentVectors (some cachedHitEntry) "fp" embedStub "c" "s" "u" "h").hit
      = true ∧
    (resolveComponentVectors (some cachedHitEntry) "fp" embedStub "c" "s" "u" "h").embedCalls
      = [] ∧
    cachedHitEntry.codeVec =
      some (resolveComponentVectors (some cachedHitEntry) "fp" embedStub "c" "s" "u" "h").codeVec ∧
    (resolveComponentVectors (some cachedStaleEntry)
        (fingerprintRepresentation "b" "s" "t" "u" "v") embedStub "c" "s" "u" "h").hit
      = false ∧
    (resolveComponentVectors (some cachedStaleEntry)
        (fingerprintRepresentation "b" "s" "t" "u" "v") embedStub "c" "s" "u" "h").codeVec
      = embedStub "c" := by
  have hhit :
      (resolveComponentVectors (some cachedHitEntry) "fp" embedStub "c" "s" "u" "h").hit
        = true :=
    (cache_hit_iff_fingerprint_match_and_full_vectors.1
      (some cachedHitEntry) "fp" embedStub "c" "s" "u" "h").mpr
      ⟨cachedHitEntry, rfl, rfl, ⟨[1], rfl, by simp⟩, ⟨[1], rfl, by simp⟩,
        ⟨[1], rfl, by simp⟩, ⟨[1], rfl, by simp⟩⟩
  have hreuse :=
    cache_hit_iff_fingerprint_match_and_full_vectors.2.1
      (some cachedHitEntry) "fp" embedStub "c" "s" "u" "h" cachedHitEntry rfl hhit
  have hmiss :=
    cache_hit_iff_fingerprint_match_and_full_vectors.2.2
      embedStub "c" "s" "u" "h" cachedStaleEntry "a" "b" "s" "t" "u" "v"
      (by decide) rfl
  exact ⟨hhit, hreuse.1, hreuse.2.1, hmiss.1, hmiss.2.1⟩

/-! ## Branch lemmas for `processPair` -/

/-- A compare-filtered pair is tallied as suppressed, nothing else. -/
theorem processPair_filtered (config : Config) (st : SimState)
    (ab : (Nat × Entry) × (Nat × Entry)) (h : compareFiltered config ab = true) :
    processPair config st ab = some (bumpSuppressed st "compare-filter") := by
  simp only [processPair]
  rw [if_pos (show (compareEnabled config &&
    !(xor ab.1.2.component.isCompareTarget ab.2.2.component.isCompareTarget)) = true
    from h)]

/-- A pair below the similarity threshold only records aggregates. -/
theorem processPair_below (config : Config) (st : SimState)
    (ab : (Nat × Entry) × (Nat × Entry)) (hf : compareFiltered config ab = false)
    (h1 : pairSim ab < ((config.similarityThreshold : ℚ) : ℝ)) :
    processPair config st ab =
      some (recordAggregates st ab.1.2 ab.2.2 (pairSim ab)) := by
  simp only [processPair]
  rw [if_neg (by rw [show (compareEnabled config &&
      !(xor ab.1.2.component.isCompareTarget ab.2.2.component.isCompareTarget)) =
      compareFiltered config ab from rfl, hf]; exact Bool.false_ne_true)]
  rw [show cosine ab.1.2.vector ab.2.2.vector = pairSim ab from rfl]
  rw [if_pos h1]

/-- A pair exceeding the max-threshold ceiling by more than epsilon is
suppressed as `over-max-threshold`, after recording aggregates. -/
theorem processPair_over_max (config : Config) (st : SimState)
    (ab : (Nat × Entry) × (Nat × Entry)) (hf : compareFiltered config ab = false)
    (h1 : ¬(pairSim ab < ((config.similarityThreshold : ℚ) : ℝ)))
    (h2 : (1e-6 : ℝ) < pairSim ab - ((maxThreshold config : ℚ) : ℝ)) :
    processPair config st ab =
      some (bumpSuppressed (recordAggregates st ab.1.2 ab.2.2 (pairSim ab))
        "over-max-threshold") := by
  simp only [processPair]
  rw [if_neg (by rw [show (compareEnabled config &&
      !(xor ab.1.2.component.isCompareTarget ab.2.2.component.isCompareTarget)) =
      compareFiltered config ab from rfl, hf]; exact Bool.false_ne_true)]
  rw [show cosine ab.1.2.vector ab.2.2.vector = pairSim ab from rfl]
  rw [if_neg h1, if_pos h2]

/-- A pair failing the path-distance gate is suppressed as `near-path`,
after recording aggregates. -/
theorem processPair_near_path (config : Config) (st : SimState)
    (ab : (Nat × Entry) × (Nat × Entry)) (hf : compareFiltered config ab = false)
    (h1 : ¬(pairSim ab < ((config.similarityThreshold : ℚ) : ℝ)))
    (h2 : ¬((1e-6 : ℝ) < pairSim ab - ((maxThreshold config : ℚ) : ℝ)))
    (h3 : shouldSkipByPath ab.1.2.component.filePath ab.2.2.component.filePath config
      = true) :
    processPair config st ab =
      some (bumpSuppressed (recordAggregates st ab.1.2 ab.2.2 (pairSim ab))
        "near-path") := by
  simp only [processPair]
  rw [if_neg (by rw [show (compareEnabled config &&
      !(xor ab.1.2.component.isCompareTarget ab.2.2.component.isCompareTarget)) =
      compareFiltered config ab from rfl, hf]; exact Bool.false_ne_true)]
  rw [show cosine ab.1.2.vector ab.2.2.vector = pairSim ab from rfl]
  rw [if_neg h1, if_neg h2, if_pos h3]

/-- A pair rejected by the suppression heuristics is tallied under the
returned reason, after recording aggregates. -/
theorem processPair_suppressed (config : Config) (st : SimState)
    (ab : (Nat × Entry) × (Nat × Entry)) (reason : String)
    (hf : compareFiltered config ab = false)
    (h1 : ¬(pairSim ab < ((config.similarityThreshold : ℚ) : ℝ)))
    (h2 : ¬((1e-6 : ℝ) < pairSim ab - ((maxThreshold config : ℚ) : ℝ)))
    (h3 : shouldSkipByPath ab.1.2.component.filePath ab.2.2.component.filePath config
      = false)
    (h4 : suppressPair ab.1.2 ab.2.2 = some reason) :
    processPair config st ab =
      some (bumpSuppressed (recordAggregates st ab.1.2 ab.2.2 (pairSim ab))
        reason) := by
  simp only [processPair]
  rw [if_neg (by rw [show (compareEnabled config &&
      !(xor ab.1.2.component.isCompareTarget ab.2.2.component.isCompareTarget)) =
      compareFiltered config ab from rfl, hf]; exact Bool.false_ne_true)]
  rw [show cosine ab.1.2.vector ab.2.2.vector = pairSim ab from rfl]
  rw [if_neg h1, if_neg h2, if_neg (by rw [h3]; exact Bool.false_ne_true), h4]

/-- A surviving pair is labeled and appended to the result list with its
4-decimal-rounded similarity and coarse category. -/
theorem processPair_reported (config : Config) (st : SimState)
    (ab : (Nat × Entry) × (Nat × Entry)) (r : LabelResult)
    (hf : compareFiltered config ab = false)
    (h1 : ¬(pairSim ab < ((config.similarityThreshold : ℚ) : ℝ)))
    (h2 : ¬((1e-6 : ℝ) < pairSim ab - ((maxThreshold config : ℚ) : ℝ)))
    (h3 : shouldSkipByPath ab.1.2.component.filePath ab.2.2.component.filePath config
      = false)
    (h4 : suppressPair ab.1.2 ab.2.2 = none)
    (h5 : labelPair ab.1.2 ab.2.2 (pairSim ab) config = some r) :
    processPair config st ab =
      some { recordAggregates st ab.1.2 ab.2.2 (pairSim ab) with
        pairs := st.pairs ++
          [{ a := ab.1.2.component.id
             b := ab.2.2.component.id
             similarity := round4 (pairSim ab)
             category :=
               if ((config.highSimilarityThreshold : ℚ) : ℝ) ≤ pairSim ab then
                 "almost-identical"
               else "near-duplicate"
             labels := r.labels
             hints := r.hints }] } := by
  simp only [processPair]
  rw [if_neg (by rw [show (compareEnabled config &&
      !(xor ab.1.2.component.isCompareTarget ab.2.2.component.isCompareTarget)) =
      compareFiltered config ab from rfl, hf]; exact Bool.false_ne_true)]
  rw [show cosine ab.1.2.vector ab.2.2.vector = pairSim ab from rfl]
  rw [if_neg h1, if_neg h2, if_neg (by rw [h3]; exact Bool.false_ne_true), h4, h5]
  rfl

/-! ## Shared evaluation lemmas -/

/-- Walking a directory list against itself diverges nowhere. -/
theorem divergeDepth_self (l : List String) (i : Nat) :
    divergeDepth l l i = 0 := by
  induction l generalizing i with
  | nil => rfl
  | cons x xs ih => simp [divergeDepth, ih]

/-- The cosine similarity of the fixture vectors `[21, 20]` and `[1, 0]`
is exactly 21/29. -/
theorem cosine_fixture : cosine [(21 : ℝ), 20] [(1 : ℝ), 0] = 21/29 := by
  have h841 : Real.sqrt (sumSq [(21 : ℝ), 20]) = 29 := by
    have : sumSq [(21 : ℝ), 20] = 29 ^ 2 := by
      simp [sumSq]; norm_num
    rw [this, Real.sqrt_sq (by norm_num : (0 : ℝ) ≤ 29)]
  have h1 : Real.sqrt (sumSq [(1 : ℝ), 0]) = 1 := by
    have : sumSq [(1 : ℝ), 0] = 1 := by simp [sumSq]
    rw [this, Real.sqrt_one]
  simp only [cosine, h841, h1]
  rw [if_neg (by norm_num)]
  norm_num [List.zip]

/-- The similarity of the `(entX, entY)` fixture pair. -/
theorem pairSim_entXY :
    pairSim ((0, entX), (1, entY)) = 21/29 := by
  show cosine entX.vector entY.vector = 21/29
  show cosine [(21 : ℝ), 20] [(1 : ℝ), 0] = 21/29
  exact cosine_fixture

/-- The similarity of the `(entP, entQ)` fixture pair. -/
theorem pairSim_entPQ :
    pairSim ((0, entP), (1, entQ)) = 21/29 := by
  show cosine entP.vector entQ.vector = 21/29
  show cosine [(21 : ℝ), 20] [(1 : ℝ), 0] = 21/29
  exact cosine_fixture

/-! ## C5 — the path-distance gate -/

/-- C5, counterexample: two files in the same directory `a/b` have
identical directory ancestry, and the walk returns 0 for them — not 1 as
the claim states. -/
theorem pathDistance_same_directory_is_zero :
    pathDistance "a/b/x.js" "a/b/y.js" = 0 ∧
    pathDistance "a/b/x.js" "a/b/y.js" ≠ 1 :=
  ⟨rfl, by decide⟩

/-- C5 (amended): the gate walks both paths' directory segments from the
end (filename excluded) until they diverge or one is exhausted, the
divergence depth counting from 1; identical ancestry — in particular two
files in the same directory — gives distance 0; a pair whose distance is
below the configured minimum is suppressed as `near-path`, and with
`minPathDistance ≤ 0` the gate never skips. -/
theorem path_distance_gate_behavior :
    (∀ pa pb config, config.minPathDistance.getD 0 ≤ 0 →
      shouldSkipByPath pa pb config = false) ∧
    (∀ pa pb config, 0 < config.minPathDistance.getD 0 →
      (shouldSkipByPath pa pb config = true ↔
        ((pathDistance pa pb : ℚ) < config.minPathDistance.getD 0))) ∧
    (∀ pa pb, splitDirs pa = splitDirs pb → pathDistance pa pb = 0) ∧
    (∀ (x y : String) (xs ys : List String) (i : Nat), x ≠ y →
      divergeDepth (x :: xs) (y :: ys) i = i) ∧
    (∀ (y : String) (ys : List String) (i : Nat),
      divergeDepth [] (y :: ys) i = i) ∧
    (∀ (x : String) (xs : List String) (i : Nat),
      divergeDepth (x :: xs) [] i = i) ∧
    (∀ config st ab, compareFiltered config ab = false →
      ¬(pairSim ab < ((config.similarityThreshold : ℚ) : ℝ)) →
      ¬((1e-6 : ℝ) < pairSim ab - ((maxThreshold config : ℚ) : ℝ)) →
      shouldSkipByPath ab.1.2.component.filePath ab.2.2.component.filePath config
        = true →
      processPair config st ab =
        some (bumpSuppressed (recordAggregates st ab.1.2 ab.2.2 (pairSim ab))
          "near-path")) := by
  refine ⟨?_, ?_, ?_, ?_, fun _ _ _ => rfl, fun _ _ _ => rfl,
    processPair_near_path⟩
  · intro pa pb config h
    simp [shouldSkipByPath, h]
  · intro pa pb config h
    rw [shouldSkipByPath]
    rw [if_neg (by exact not_le.mpr h)]
    simp
  · intro pa pb h
    rw [pathDistance, h]
    exact divergeDepth_self _ _
  · intro x y xs ys i h
    simp [divergeDepth, h]

/-- C5, witness: the gate conjuncts applied at concrete paths and a
concrete run — with no configured minimum nothing is skipped; with
minimum 1, two files in the same directory are at distance 0 and the
pair is suppressed as `near-path` after its aggregates are recorded. -/
theorem path_distance_gate_behavior_witness :
    shouldSkipByPath "a/b/x.js" "c/d/y.js" cfg1 = false ∧
    shouldSkipByPath "d/p.js" "d/q.js" cfgNear = true ∧
    pathDistance "x/u/f.js" "x/u/g.js" = 0 ∧
    divergeDepth ["u", "x"] ["v", "x"] 1 = 1 ∧
    processPair cfgNear initSimState ((0, entP), (1, entQ)) =
      some (bumpSuppressed
        (recordAggregates initSimState (0, entP).2 (1, entQ).2
          (pairSim ((0, entP), (1, entQ))))
        "near-path") := by
  refine ⟨?_, ?_, ?_, ?_, ?_⟩
  · exact path_distance_gate_behavior.1 "a/b/x.js" "c/d/y.js" cfg1 (by decide)
  · exact (path_distance_gate_behavior.2.1 "d/p.js" "d/q.js" cfgNear
      (by decide)).mpr (by decide)
  · exact path_distance_gate_behavior.2.2.1 "x/u/f.js" "x/u/g.js" (by decide)
  · exact path_distance_gate_behavior.2.2.2.1 "u" "v" ["x"] ["x"] 1 (by decide)
  · refine path_distance_gate_behavior.2.2.2.2.2.2 cfgNear initSimState
      ((0, entP), (1, entQ)) rfl ?_ ?_ ?_
    · rw [pairSim_entPQ]
      norm_num [cfgNear]
    · rw [pairSim_entPQ]
      norm_num [cfgNear, maxThreshold]
    · decide

/-! ## C10 — labelPair totality and defaulting -/

/-- `optLength` in terms of the defaulted list. -/
theorem optLength_eq_length_getD (o : Option (List String)) :
    optLength o = (o.getD []).length := by
  cases o <;> simp [optLength]

/-- `listLength` in terms of the defaulted list. -/
theorem listLength_eq_length_getD (l : Option (List String)) :
    listLength l = (l.getD []).length := by
  cases l <;> simp [listLength]

/-- `labelPair` as the five-rule fold followed by the fork rule. -/
theorem labelPair_eq (eA eB : Entry) (s : ℝ) (cfg : Config) :
    labelPair eA eB s cfg =
      (buildContext eA eB s cfg).map fun ctx =>
        runCheck (preliminaryResult ctx)
          (forkCheck ctx (preliminaryResult ctx).labels) := rfl

/-- The fields of a successfully built context. -/
theorem buildContext_fields {eA eB : Entry} {s : ℝ} {cfg : Config}
    {ctx : LabelContext} (h : buildContext eA eB s cfg = some ctx) :
    ctx.entryA = eA ∧ ctx.entryB = eB ∧ ctx.similarity = s ∧
    ctx.config = cfg ∧
    ctx.lineDiff =
      ((lineCount eA.component.source : Int)
        - (lineCount eB.component.source : Int)).natAbs := by
  cases hlo : overlapChecked eA.component.logicTokens eB.component.logicTokens with
  | none => simp [buildContext, hlo] at h
  | some lo =>
    cases hli : overlapChecked eA.component.literals eB.component.literals with
    | none => simp [buildContext, hlo, hli] at h
    | some li =>
      simp only [buildContext, hlo, hli, Option.some.injEq] at h
      subst h
      exact ⟨rfl, rfl, rfl, rfl, rfl⟩

/-- `hasProps` is unchanged by defaulting the `props` object. -/
theorem hasProps_defaultProps (c : Component) :
    hasProps (defaultProps c) = hasProps c := by
  simp [hasProps, defaultProps, optLength_eq_length_getD]

/-- `hasProps` is unchanged by defaulting all optional lists. -/
theorem hasProps_defaultOtherLists (c : Component) :
    hasProps (defaultOtherLists c) = hasProps c := by
  simp [hasProps, defaultOtherLists, optLength_eq_length_getD]

/-- `isWrapperLike` is unchanged by defaulting all optional lists. -/
theorem isWrapperLike_defaultOtherLists (c : Component) :
    isWrapperLike (defaultOtherLists c) = isWrapperLike c := by
  have hp := hasProps_defaultOtherLists c
  simp [isWrapperLike, defaultOtherLists, optLength_eq_length_getD] at hp ⊢
  rw [hp]

/-- `dominantTag` is unchanged by defaulting all optional lists. -/
theorem dominantTag_defaultOtherLists (c : Component) :
    dominantTag (defaultOtherLists c) = dominantTag c := by
  simp [dominantTag, defaultOtherLists]

/-- `componentSignal` is unchanged by defaulting all optional lists. -/
theorem componentSignal_defaultOtherLists (c : Component) :
    componentSignal (defaultOtherLists c) = componentSignal c := by
  simp [componentSignal, defaultOtherLists]

/-- `compositionSuppression` is unchanged by defaulting. -/
theorem compositionSuppression_defaultOtherLists (a b : Component) :
    compositionSuppression (defaultOtherLists a) (defaultOtherLists b) =
      compositionSuppression a b := by
  simp [compositionSuppression, defaultOtherLists]

/-- `wrapperSuppression` is unchanged by defaulting. -/
theorem wrapperSuppression_defaultOtherLists (a b : Component) :
    wrapperSuppression (defaultOtherLists a) (defaultOtherLists b) =
      wrapperSuppression a b := by
  simp only [wrapperSuppression, isWrapperLike_defaultOtherLists,
    dominantTag_defaultOtherLists, listLength_eq_length_getD]
  simp [defaultOtherLists, differentWrappedBases]

/-- `lowSignalSuppression` is unchanged by defaulting. -/
theorem lowSignalSuppression_defaultOtherLists (a b : Component) :
    lowSignalSuppression (defaultOtherLists a) (defaultOtherLists b) =
      lowSignalSuppression a b := by
  simp only [lowSignalSuppression, isWrapperLike_defaultOtherLists,
    hasProps_defaultOtherLists, componentSignal_defaultOtherLists]
  rfl

/-- The context built on `defaultProps`-mapped entries differs from the
original only in its two entry fields. -/
theorem buildContext_defaultProps (eA eB : Entry) (s : ℝ) (cfg : Config) :
    buildContext (mapComponent defaultProps eA) (mapComponent defaultProps eB)
        s cfg =
      (buildContext eA eB s cfg).map fun ctx =>
        { ctx with
          entryA := mapComponent defaultProps eA
          entryB := mapComponent defaultProps eB } := by
  cases hlo : overlapChecked eA.component.logicTokens eB.component.logicTokens with
  | none => simp [buildContext, mapComponent, defaultProps, hlo]
  | some lo =>
    cases hli : overlapChecked eA.component.literals eB.component.literals with
    | none => simp [buildContext, mapComponent, defaultProps, hlo, hli]
    | some li =>
      simp [buildContext, mapComponent, defaultProps, hlo, hli,
        optLength_eq_length_getD]

/-- The five preliminary rules and the fork rule only read the entries'
`isWrapper` flags, so replacing the entries by any entries with the same
flags leaves the label fold unchanged. -/
theorem labelFold_entry_congr (ctx : LabelContext) (eA' eB' : Entry)
    (hA : eA'.component.isWrapper = ctx.entryA.component.isWrapper)
    (hB : eB'.component.isWrapper = ctx.entryB.component.isWrapper) :
    runCheck (preliminaryResult { ctx with entryA := eA', entryB := eB' })
        (forkCheck { ctx with entryA := eA', entryB := eB' }
          (preliminaryResult { ctx with entryA := eA', entryB := eB' }).labels) =
      runCheck (preliminaryResult ctx)
        (forkCheck ctx (preliminaryResult ctx).labels) := by
  have hw : wrapperCheck { ctx with entryA := eA', entryB := eB' } =
      wrapperCheck ctx := by
    simp [wrapperCheck, hA, hB]
  have hs : styleCheck { ctx with entryA := eA', entryB := eB' } =
      styleCheck ctx := rfl
  have hl : logicCheck { ctx with entryA := eA', entryB := eB' } =
      logicCheck ctx := rfl
  have hc : copyCheck { ctx with entryA := eA', entryB := eB' } =
      copyCheck ctx := rfl
  have hp : propCheck { ctx with entryA := eA', entryB := eB' } =
      propCheck ctx := rfl
  have hf : ∀ labels, forkCheck { ctx with entryA := eA', entryB := eB' } labels =
      forkCheck ctx labels := fun _ => rfl
  unfold preliminaryResult
  rw [hw, hs, hl, hc, hp, hf]

/-- C10: `labelPair` is total exactly when both components carry
`logicTokens` and `literals` arrays — `buildContext` reads their
`.length` without a default, so an absent field throws (`none`), while
every other consumed metadata list is defaulted: defaulting `props`
leaves `labelPair` unchanged and defaulting the optional lists leaves
the suppression heuristics unchanged; and `overlap` returns 0 whenever
either materialized list is empty. -/
theorem labelPair_total_iff_token_lists_present :
    (∀ eA eB (s : ℝ) cfg, (labelPair eA eB s cfg).isSome ↔
      (eA.component.logicTokens.isSome ∧ eB.component.logicTokens.isSome ∧
       eA.component.literals.isSome ∧ eB.component.literals.isSome)) ∧
    (∀ l : List String, overlap [] l = 0) ∧
    (∀ l : List String, overlap l [] = 0) ∧
    (∀ eA eB (s : ℝ) cfg,
      labelPair (mapComponent defaultProps eA) (mapComponent defaultProps eB)
        s cfg = labelPair eA eB s cfg) ∧
    (∀ eA eB,
      suppressPair (mapComponent defaultOtherLists eA)
        (mapComponent defaultOtherLists eB) = suppressPair eA eB) := by
  refine ⟨?_, ?_, ?_, ?_, ?_⟩
  · intro eA eB s cfg
    cases hA : eA.component.logicTokens <;>
      cases hB : eB.component.logicTokens <;>
        cases hC : eA.component.literals <;>
          cases hD : eB.component.literals <;>
            simp [labelPair, buildContext, overlapChecked, hA, hB, hC, hD]
  · intro l
    simp [overlap]
  · intro l
    simp [overlap]
  · intro eA eB s cfg
    rw [labelPair_eq, labelPair_eq, buildContext_defaultProps]
    cases hctx : buildContext eA eB s cfg with
    | none => rfl
    | some ctx =>
      obtain ⟨h1, h2, -⟩ := buildContext_fields hctx
      simp only [Option.map_some', Option.some.injEq]
      refine labelFold_entry_congr ctx _ _ ?_ ?_
      · rw [h1]
        simp [mapComponent, defaultProps]
      · rw [h2]
        simp [mapComponent, defaultProps]
  · intro eA eB
    show (match compositionSuppression (defaultOtherLists eA.component)
        (defaultOtherLists eB.component) with
      | some r => some r
      | none =>
        match wrapperSuppression (defaultOtherLists eA.component)
            (defaultOtherLists eB.component) with
        | some r => some r
        | none =>
          lowSignalSuppression (defaultOtherLists eA.component)
            (defaultOtherLists eB.component)) = suppressPair eA eB
    rw [compositionSuppression_defaultOtherLists,
      wrapperSuppression_defaultOtherLists,
      lowSignalSuppression_defaultOtherLists]
    rfl

/-! ## C8 — the forked-clone rule -/

/-- Membership in the labels of a `runCheck` step. -/
theorem runCheck_labels_mem (acc : LabelResult) (res : Option CheckResult)
    (p : String) :
    p ∈ (runCheck acc res).labels ↔
      p ∈ acc.labels ∨ ∃ r, res = some r ∧ p = r.label := by
  cases res <;> simp [runCheck]

/-- A produced wrapper label is `wrapper-duplicate`. -/
theorem wrapperCheck_label {ctx : LabelContext} {r : CheckResult}
    (h : wrapperCheck ctx = some r) : r.label = "wrapper-duplicate" := by
  simp only [wrapperCheck] at h
  split_ifs at h <;>
    first
      | exact Option.noConfusion h
      | (obtain rfl := Option.some.inj h; rfl)

/-- A produced style label is `style-duplicate`. -/
theorem styleCheck_label {ctx : LabelContext} {r : CheckResult}
    (h : styleCheck ctx = some r) : r.label = "style-duplicate" := by
  simp only [styleCheck] at h
  split_ifs at h <;>
    first
      | exact Option.noConfusion h
      | (obtain rfl := Option.some.inj h; rfl)

/-- A produced logic label is `logic-duplicate`. -/
theorem logicCheck_label {ctx : LabelContext} {r : CheckResult}
    (h : logicCheck ctx = some r) : r.label = "logic-duplicate" := by
  simp only [logicCheck] at h
  split_ifs at h <;>
    first
      | exact Option.noConfusion h
      | (obtain rfl := Option.some.inj h; rfl)

/-- A produced copy label is `copy-paste-variant`. -/
theorem copyCheck_label {ctx : LabelContext} {r : CheckResult}
    (h : copyCheck ctx = some r) : r.label = "copy-paste-variant" := by
  simp only [copyCheck] at h
  split_ifs at h <;>
    first
      | exact Option.noConfusion h
      | (obtain rfl := Option.some.inj h; rfl)

/-- A produced prop label is `prop-parameterizable`. -/
theorem propCheck_label {ctx : LabelContext} {r : CheckResult}
    (h : propCheck ctx = some r) : r.label = "prop-parameterizable" := by
  simp only [propCheck] at h
  split_ifs at h <;>
    first
      | exact Option.noConfusion h
      | (obtain rfl := Option.some.inj h; rfl)

/-- A produced fork label is `forked-clone`. -/
theorem forkCheck_label {ctx : LabelContext} {labels : List String}
    {r : CheckResult} (h : forkCheck ctx labels = some r) :
    r.label = "forked-clone" := by
  simp only [forkCheck] at h
  split_ifs at h <;>
    first
      | exact Option.noConfusion h
      | (obtain rfl := Option.some.inj h; rfl)

/-- The five preliminary rules never produce the `forked-clone` label. -/
theorem fork_label_not_preliminary (ctx : LabelContext) :
    "forked-clone" ∉ (preliminaryResult ctx).labels := by
  intro hmem
  unfold preliminaryResult at hmem
  simp only [runCheck_labels_mem, List.not_mem_nil, false_or, or_assoc] at hmem
  rcases hmem with ⟨r, hr, hlab⟩ | ⟨r, hr, hlab⟩ | ⟨r, hr, hlab⟩ |
    ⟨r, hr, hlab⟩ | ⟨r, hr, hlab⟩
  · rw [wrapperCheck_label hr] at hlab
    exact absurd hlab (by decide)
  · rw [styleCheck_label hr] at hlab
    exact absurd hlab (by decide)
  · rw [logicCheck_label hr] at hlab
    exact absurd hlab (by decide)
  · rw [copyCheck_label hr] at hlab
    exact absurd hlab (by decide)
  · rw [propCheck_label hr] at hlab
    exact absurd hlab (by decide)

/-- `forkCheck` fires exactly under its four conditions. -/
theorem forkCheck_eq_some_iff (ctx : LabelContext) (labels : List String) :
    (∃ r, forkCheck ctx labels = some r) ↔
      (isDisabled ctx.config "forked-clone" = false ∧
        ((ctx.config.similarityThreshold : ℚ) : ℝ) ≤ ctx.similarity ∧
        labels = [] ∧ 4 ≤ ctx.lineDiff) := by
  unfold forkCheck
  split_ifs with hd hc
  · simp [hd]
  · simp only [Bool.not_eq_true] at hd
    simp only [List.isEmpty_iff] at hc
    simp [hd, hc]
  · simp only [Bool.not_eq_true] at hd
    rw [List.isEmpty_iff] at hc
    simp [hd, hc]

/-- C8: `forked-clone` is assigned exactly when the rule is enabled, the
similarity is at least the minimum threshold, none of the five earlier
rules produced a label, and the two units' line counts differ by at
least 4; the five earlier rules are each functions of the shared context
alone (the result decomposes as their fold followed by the fork rule),
so several of them can fire on one pair. -/
theorem forked_clone_only_without_other_labels :
    ∀ eA eB (s : ℝ) cfg r, labelPair eA eB s cfg = some r →
      ∃ ctx, buildContext eA eB s cfg = some ctx ∧
        r = runCheck (preliminaryResult ctx)
          (forkCheck ctx (preliminaryResult ctx).labels) ∧
        ("forked-clone" ∈ r.labels ↔
          isDisabled cfg "forked-clone" = false ∧
          ((cfg.similarityThreshold : ℚ) : ℝ) ≤ s ∧
          (preliminaryResult ctx).labels = [] ∧
          4 ≤ ((lineCount eA.component.source : Int)
            - (lineCount eB.component.source : Int)).natAbs) := by
  intro eA eB s cfg r h
  rw [labelPair_eq] at h
  obtain ⟨ctx, hctx, hr⟩ := Option.map_eq_some'.mp h
  obtain ⟨hA, hB, hsim, hcfg, hline⟩ := buildContext_fields hctx
  subst hr
  refine ⟨ctx, hctx, rfl, ?_⟩
  rw [runCheck_labels_mem]
  constructor
  · rintro (hmem | ⟨fr, hfr, -⟩)
    · exact absurd hmem (fork_label_not_preliminary ctx)
    · obtain ⟨hd, hs, hl, hld⟩ := (forkCheck_eq_some_iff ctx _).mp ⟨fr, hfr⟩
      rw [hcfg] at hd
      rw [hcfg, hsim] at hs
      rw [hline] at hld
      exact ⟨hd, hs, hl, hld⟩
  · rintro ⟨hd, hs, hl, hld⟩
    rw [← hcfg] at hd
    rw [← hcfg, ← hsim] at hs
    rw [← hline] at hld
    obtain ⟨fr, hfr⟩ := (forkCheck_eq_some_iff ctx _).mpr ⟨hd, hs, hl, hld⟩
    exact Or.inr ⟨fr, hfr, (forkCheck_label hfr).symm⟩

/-! ## C6 — combiner normalization -/

/-- Shifting the accumulator out of the sum-of-squares fold. -/
theorem sumSq_shift (xs : List ℝ) (a : ℝ) :
    xs.foldl (fun acc x => acc + x * x) a = a + sumSq xs := by
  induction xs generalizing a with
  | nil => simp [sumSq]
  | cons x xs ih =>
    show xs.foldl (fun acc x => acc + x * x) (a + x * x) = a + sumSq (x :: xs)
    rw [ih]
    show a + x * x + sumSq xs = a + xs.foldl (fun acc x => acc + x * x) (0 + x * x)
    rw [ih]
    ring

/-- Sum of squares of a cons cell. -/
theorem sumSq_cons (x : ℝ) (xs : List ℝ) :
    sumSq (x :: xs) = x * x + sumSq xs := by
  show xs.foldl (fun acc x => acc + x * x) (0 + x * x) = x * x + sumSq xs
  rw [sumSq_shift]
  ring

/-- A sum of squares is non-negative. -/
theorem sumSq_nonneg (v : List ℝ) : 0 ≤ sumSq v := by
  induction v with
  | nil => exact le_refl 0
  | cons x xs ih =>
    rw [sumSq_cons]
    exact add_nonneg (mul_self_nonneg x) ih

/-- Dividing a vector by a scalar divides its sum of squares by the
scalar's square. -/
theorem sumSq_map_div (v : List ℝ) (c : ℝ) :
    sumSq (v.map fun x => x / c) = sumSq v / (c * c) := by
  induction v with
  | nil => simp [sumSq]
  | cons x xs ih =>
    rw [List.map_cons, sumSq_cons, sumSq_cons, ih, div_mul_div_comm, add_div]

/-- L2-normalizing a vector with non-zero sum of squares yields a vector
of sum of squares 1. -/
theorem sumSq_normalize (v : List ℝ) (h : sumSq v ≠ 0) :
    sumSq (normalize v) = 1 := by
  have hpos : 0 < sumSq v := lt_of_le_of_ne (sumSq_nonneg v) (Ne.symm h)
  have hs : Real.sqrt (sumSq v) ≠ 0 := by
    rw [Real.sqrt_ne_zero']
    exact hpos
  simp only [normalize]
  rw [if_neg hs, sumSq_map_div, Real.mul_self_sqrt (le_of_lt hpos)]
  exact div_self h

/-- C6 (amended): whenever all four input vectors are non-empty and all
effective weights are positive — so every part survives the drop step —
and the weighted element-wise sum is not the zero vector, the combined
vector has L2 norm exactly 1; the algorithm renormalizes the surviving
weights, truncates to the shortest common length, forms the weighted sum
and L2-normalizes it.  (When the weighted sum cancels to the zero
vector, the source returns it unchanged with norm 0 — see the
counterexample.) -/
theorem combineVectors_unit_norm :
    ∀ (v : FourVectors) (w : PartWeights) (hs : Bool),
      v.codeVec ≠ [] → v.styleVec ≠ [] → v.structureVec ≠ [] →
      v.holisticVec ≠ [] →
      0 < (resolvedWeight w).code →
      0 < (if hs = false then 0 else (resolvedWeight w).style) →
      0 < (resolvedWeight w).struct →
      0 < (resolvedWeight w).holistic →
      sumSq (combineRaw (combineParts v w hs)) ≠ 0 →
      Real.sqrt (sumSq (combineVectors v w hs)) = 1 := by
  intro v w hs _ _ _ _ _ _ _ _ hz
  unfold combineVectors
  have hne : (combineParts v w hs).isEmpty = false := by
    cases hp : combineParts v w hs with
    | nil =>
      exfalso
      apply hz
      rw [hp]
      rfl
    | cons a l => rfl
  rw [if_neg (by rw [hne]; exact Bool.false_ne_true)]
  rw [sumSq_normalize _ hz, Real.sqrt_one]

/-- C6, counterexample: with the non-empty vectors `[1], [1], [-1], [-1]`
and positive weights 1/4 each, every part survives the drop step, yet the
weighted sum cancels to the zero vector; the source's zero-norm guard
returns it unchanged, so the combined vector has L2 norm 0, not 1 —
refuting the claim for these inputs. -/
theorem combineVectors_cancellation_not_unit_norm :
    cancellingVectors.codeVec ≠ [] ∧ cancellingVectors.styleVec ≠ [] ∧
    cancellingVectors.structureVec ≠ [] ∧ cancellingVectors.holisticVec ≠ [] ∧
    0 < (resolvedWeight quarterWeights).code ∧
    0 < (if (true : Bool) = false then 0 else (resolvedWeight quarterWeights).style) ∧
    0 < (resolvedWeight quarterWeights).struct ∧
    0 < (resolvedWeight quarterWeights).holistic ∧
    Real.sqrt (sumSq (combineVectors cancellingVectors quarterWeights true)) ≠ 1 := by
  have hparts : combineParts cancellingVectors quarterWeights true =
      [([(1 : ℝ)], (1/4 : ℚ)), ([(1 : ℝ)], (1/4 : ℚ)),
       ([(-1 : ℝ)], (1/4 : ℚ)), ([(-1 : ℝ)], (1/4 : ℚ))] := by
    simp only [combineParts, resolvedWeight, quarterWeights, cancellingVectors]
    norm_num [List.filter]
  have hraw : combineRaw [([(1 : ℝ)], (1/4 : ℚ)), ([(1 : ℝ)], (1/4 : ℚ)),
      ([(-1 : ℝ)], (1/4 : ℚ)), ([(-1 : ℝ)], (1/4 : ℚ))] = [0] := by
    simp only [combineRaw]
    norm_num [List.range_succ, List.range_zero, List.getD]
  have hcomb : combineVectors cancellingVectors quarterWeights true =
      normalize [0] := by
    simp only [combineVectors]
    rw [hparts, hraw]
    rfl
  have hzero : sumSq (normalize [(0 : ℝ)]) = 0 := by
    simp only [normalize, sumSq_cons]
    norm_num [sumSq]
  refine ⟨by simp [cancellingVectors], by simp [cancellingVectors],
    by simp [cancellingVectors], by simp [cancellingVectors],
    by norm_num [resolvedWeight, quarterWeights],
    by norm_num [resolvedWeight, quarterWeights],
    by norm_num [resolvedWeight, quarterWeights],
    by norm_num [resolvedWeight, quarterWeights], ?_⟩
  rw [hcomb, hzero, Real.sqrt_zero]
  norm_num

/-- C6, witness: the amended theorem applied to the all-ones vectors with
the default weights — every hypothesis holds and the combined vector has
unit norm. -/
theorem combineVectors_unit_norm_witness :
    Real.sqrt (sumSq (combineVectors onesVectors {} true)) = 1 := by
  have hparts : combineParts onesVectors {} true =
      [([(1 : ℝ)], (0.55 : ℚ)), ([(1 : ℝ)], (0.2 : ℚ)),
       ([(1 : ℝ)], (0.15 : ℚ)), ([(1 : ℝ)], (0.1 : ℚ))] := by
    simp only [combineParts, resolvedWeight, DEFAULT_WEIGHT, onesVectors]
    norm_num [List.filter]
  have hraw : combineRaw [([(1 : ℝ)], (0.55 : ℚ)), ([(1 : ℝ)], (0.2 : ℚ)),
      ([(1 : ℝ)], (0.15 : ℚ)), ([(1 : ℝ)], (0.1 : ℚ))] = [1] := by
    simp only [combineRaw]
    norm_num [List.range_succ, List.range_zero, List.getD]
  refine combineVectors_unit_norm onesVectors {} true
    (by simp [onesVectors]) (by simp [onesVectors]) (by simp [onesVectors])
    (by simp [onesVectors])
    (by norm_num [resolvedWeight, DEFAULT_WEIGHT])
    (by norm_num [resolvedWeight, DEFAULT_WEIGHT])
    (by norm_num [resolvedWeight, DEFAULT_WEIGHT])
    (by norm_num [resolvedWeight, DEFAULT_WEIGHT]) ?_
  rw [hparts, hraw, sumSq_cons]
  norm_num [sumSq]

/-! ## Engine infrastructure lemmas -/

/-- A pair enumerated by the double loop consists of two enumerated
entries with strictly increasing positions. -/
theorem mem_entryPairs {entries : List Entry}
    {ab : (Nat × Entry) × (Nat × Entry)} (h : ab ∈ entryPairs entries) :
    ab.1 ∈ entries.enum ∧ ab.2 ∈ entries.enum ∧ ab.1.1 < ab.2.1 := by
  simp only [entryPairs, List.mem_flatMap, List.mem_map, List.mem_filter] at h
  obtain ⟨a, ha, b, ⟨hb, hlt⟩, rfl⟩ := h
  exact ⟨ha, hb, by simpa using hlt⟩

/-- Every pair present after one loop iteration was either already
present, or is the reported pair of this iteration — in which case the
similarity passed the threshold gate and the max-threshold gate, and the
stored similarity is the 4-decimal rounding. -/
theorem processPair_pairs_spec {config : Config} {st : SimState}
    {ab : (Nat × Entry) × (Nat × Entry)} {st' : SimState}
    (h : processPair config st ab = some st') :
    ∀ p ∈ st'.pairs, p ∈ st.pairs ∨
      (p.a = ab.1.2.component.id ∧ p.b = ab.2.2.component.id ∧
       ((config.similarityThreshold : ℚ) : ℝ) ≤ pairSim ab ∧
       pairSim ab - ((maxThreshold config : ℚ) : ℝ) ≤ 1e-6 ∧
       p.similarity = round4 (pairSim ab)) := by
  simp only [processPair] at h
  split at h
  · obtain rfl := Option.some.inj h
    intro p hp
    exact Or.inl hp
  · split at h
    · obtain rfl := Option.some.inj h
      intro p hp
      exact Or.inl hp
    · rename_i hth
      split at h
      · obtain rfl := Option.some.inj h
        intro p hp
        exact Or.inl hp
      · rename_i hmax
        split at h
        · obtain rfl := Option.some.inj h
          intro p hp
          exact Or.inl hp
        · split at h
          · obtain rfl := Option.some.inj h
            intro p hp
            exact Or.inl hp
          · obtain ⟨r, hr, rfl⟩ := Option.map_eq_some'.mp h
            intro p hp
            rcases List.mem_append.mp hp with hp | hp
            · exact Or.inl hp
            · right
              obtain rfl := List.mem_singleton.mp hp
              exact ⟨rfl, rfl, not_lt.mp hth, not_lt.mp hmax, rfl⟩

/-- Folding the loop over a pair list only adds pairs satisfying the
per-iteration specification. -/
theorem foldlM_pairs_spec (config : Config) :
    ∀ (l : List ((Nat × Entry) × (Nat × Entry))) (st st' : SimState),
      l.foldlM (processPair config) st = some st' →
      ∀ p ∈ st'.pairs, p ∈ st.pairs ∨
        ∃ ab ∈ l,
          p.a = ab.1.2.component.id ∧ p.b = ab.2.2.component.id ∧
          ((config.similarityThreshold : ℚ) : ℝ) ≤ pairSim ab ∧
          pairSim ab - ((maxThreshold config : ℚ) : ℝ) ≤ 1e-6 ∧
          p.similarity = round4 (pairSim ab) := by
  intro l
  induction l with
  | nil =>
    intro st st' h p hp
    obtain rfl := Option.some.inj h
    exact Or.inl hp
  | cons a l ih =>
    intro st st' h p hp
    rw [List.foldlM_cons] at h
    cases hm : processPair config st a with
    | none => rw [hm] at h; exact absurd h (by simp)
    | some mid =>
      rw [hm] at h
      replace h : List.foldlM (processPair config) mid l = some st' := h
      rcases ih mid st' h p hp with hmem | ⟨ab, hab, hcond⟩
      · rcases processPair_pairs_spec hm p hmem with hmem' | hcond
        · exact Or.inl hmem'
        · exact Or.inr ⟨a, List.mem_cons_self a l, hcond⟩
      · exact Or.inr ⟨ab, List.mem_cons_of_mem a hab, hcond⟩

/-- The per-unit limit filter keeps only pairs of its input. -/
theorem mem_limitFilter {limit : ℚ} {p : Pair} :
    ∀ {counts : List (String × Nat)} {l : List Pair},
      p ∈ limitFilter limit counts l → p ∈ l := by
  intro counts l
  induction l generalizing counts with
  | nil => intro h; simp [limitFilter] at h
  | cons q l ih =>
    intro h
    rw [limitFilter] at h
    split at h
    · exact List.mem_cons_of_mem q (ih h)
    · rcases List.mem_cons.mp h with hq | hmem
      · exact hq ▸ List.mem_cons_self q l
      · exact List.mem_cons_of_mem q (ih hmem)

/-- `limitMatches` returns a subset of its input pairs. -/
theorem mem_limitMatches {pairs : List Pair} {limit : Option ℚ} {p : Pair}
    (h : p ∈ limitMatches pairs limit) : p ∈ pairs := by
  cases limit with
  | none => exact List.mem_mergeSort.mp h
  | some l => exact List.mem_mergeSort.mp (mem_limitFilter h)

/-- The aggregate fields after one loop iteration: a compare-filtered
pair leaves them unchanged; every other pair bumps the evaluated count,
adds its similarity to the sum, and folds the running maximum, whatever
the later gates decide. -/
theorem processPair_aggregates {config : Config} {st : SimState}
    {ab : (Nat × Entry) × (Nat × Entry)} {st' : SimState}
    (h : processPair config st ab = some st') :
    (compareFiltered config ab = true →
      st'.evaluatedPairs = st.evaluatedPairs ∧
      st'.similaritySum = st.similaritySum ∧
      st'.maxSimilarity = st.maxSimilarity ∧
      st'.best = st.best) ∧
    (compareFiltered config ab = false →
      st'.evaluatedPairs = st.evaluatedPairs + 1 ∧
      st'.similaritySum = st.similaritySum + pairSim ab ∧
      st'.maxSimilarity = maxStep st.maxSimilarity ab ∧
      st'.best =
        trackBestSimilarity
          (trackBestSimilarity st.best ab.1.2.component.id (pairSim ab))
          ab.2.2.component.id (pairSim ab)) := by
  simp only [processPair] at h
  split at h
  · rename_i hcond
    obtain rfl := Option.some.inj h
    refine ⟨fun _ => ⟨rfl, rfl, rfl, rfl⟩, fun hf => absurd hcond ?_⟩
    rw [show (compareEnabled config &&
      !(xor ab.1.2.component.isCompareTarget ab.2.2.component.isCompareTarget)) =
      compareFiltered config ab from rfl, hf]
    exact Bool.false_ne_true
  · rename_i hcond
    have hf : compareFiltered config ab = false := by
      rw [show compareFiltered config ab = (compareEnabled config &&
        !(xor ab.1.2.component.isCompareTarget ab.2.2.component.isCompareTarget))
        from rfl]
      exact Bool.not_eq_true _ |>.mp hcond
    refine ⟨fun ht => absurd ht (by rw [hf]; exact Bool.false_ne_true), fun _ => ?_⟩
    split at h
    · obtain rfl := Option.some.inj h
      exact ⟨rfl, rfl, rfl, rfl⟩
    · split at h
      · obtain rfl := Option.some.inj h
        exact ⟨rfl, rfl, rfl, rfl⟩
      · split at h
        · obtain rfl := Option.some.inj h
          exact ⟨rfl, rfl, rfl, rfl⟩
        · split at h
          · obtain rfl := Option.some.inj h
            exact ⟨rfl, rfl, rfl, rfl⟩
          · obtain ⟨r, hr, rfl⟩ := Option.map_eq_some'.mp h
            exact ⟨rfl, rfl, rfl, rfl⟩

/-- Folding the loop accumulates the aggregates of exactly the pairs
that pass the compare-mode filter. -/
theorem foldlM_aggregates (config : Config) :
    ∀ (l : List ((Nat × Entry) × (Nat × Entry))) (st st' : SimState),
      l.foldlM (processPair config) st = some st' →
      st'.evaluatedPairs = st.evaluatedPairs +
        (l.filter fun ab => !compareFiltered config ab).length ∧
      st'.similaritySum = st.similaritySum +
        ((l.filter fun ab => !compareFiltered config ab).map pairSim).sum ∧
      st'.maxSimilarity =
        (l.filter fun ab => !compareFiltered config ab).foldl maxStep
          st.maxSimilarity := by
  intro l
  induction l with
  | nil =>
    intro st st' h
    obtain rfl := Option.some.inj h
    simp
  | cons a l ih =>
    intro st st' h
    rw [List.foldlM_cons] at h
    cases hm : processPair config st a with
    | none => rw [hm] at h; exact absurd h (by simp)
    | some mid =>
      rw [hm] at h
      replace h : List.foldlM (processPair config) mid l = some st' := h
      obtain ⟨hev, hsum, hmax⟩ := ih mid st' h
      cases hfa : compareFiltered config a with
      | true =>
        obtain ⟨h1, h2, h3, -⟩ := (processPair_aggregates hm).1 hfa
        rw [List.filter_cons_of_neg (by rw [hfa]; decide)]
        exact ⟨by rw [hev, h1], by rw [hsum, h2], by rw [hmax, h3]⟩
      | false =>
        obtain ⟨h1, h2, h3, -⟩ := (processPair_aggregates hm).2 hfa
        rw [List.filter_cons_of_pos (by rw [hfa]; rfl)]
        refine ⟨?_, ?_, ?_⟩
        · rw [hev, h1, List.length_cons]
          omega
        · rw [hsum, h2, List.map_cons, List.sum_cons]
          ring
        · rw [hmax, List.foldl_cons, h3]

/-! ## C1 — invariants of accepted pairs -/

/-- C1 (amended): every pair in the accepted list originates from an
enumerated pair of entries at positions `i < j`, with `a` the unit at
the smaller index and `b` at the larger (distinct identities whenever
the run's unit identities are pairwise distinct); the pre-rounding
cosine similarity `s` of the two combined vectors satisfies
`similarityThreshold ≤ s` and `s - maxSimilarityThreshold ≤ 1e-6`, and
the recorded similarity is `s` rounded to 4 decimals (which may
therefore differ from the gated value by up to 5e-5 — see the
counterexample). -/
theorem findSimilarities_accepted_pair_invariant :
    ∀ entries config res, findSimilarities entries config = some res →
      ∀ p ∈ res.pairs,
        ∃ i j eA eB,
          (i, eA) ∈ entries.enum ∧ (j, eB) ∈ entries.enum ∧ i < j ∧
          p.a = eA.component.id ∧ p.b = eB.component.id ∧
          ((entries.map fun e => e.component.id).Nodup → p.a ≠ p.b) ∧
          ((config.similarityThreshold : ℚ) : ℝ) ≤ cosine eA.vector eB.vector ∧
          cosine eA.vector eB.vector - ((maxThreshold config : ℚ) : ℝ) ≤ 1e-6 ∧
          p.similarity = round4 (cosine eA.vector eB.vector) := by
  intro entries config res h p hp
  simp only [findSimilarities] at h
  cases hst : (entryPairs entries).foldlM (processPair config) initSimState with
  | none => rw [hst] at h; exact absurd h (by simp)
  | some st =>
    rw [hst] at h
    replace h : some
        { pairs := limitMatches st.pairs config.limit
          scorecard :=
            buildScorecard st.best st.evaluatedPairs st.similaritySum
              st.maxSimilarity st.suppressedPairs st.suppressionReasons } =
        some res := h
    obtain rfl := Option.some.inj h
    have hmem : p ∈ st.pairs := mem_limitMatches hp
    rcases foldlM_pairs_spec config _ _ _ hst p hmem with
      hinit | ⟨ab, hab, ha, hb, hthr, hmax, hsim⟩
    · simp [initSimState] at hinit
    · obtain ⟨h1, h2, hlt⟩ := mem_entryPairs hab
      refine ⟨ab.1.1, ab.2.1, ab.1.2, ab.2.2, h1, h2, hlt, ha, hb, ?_,
        hthr, hmax, hsim⟩
      intro hnodup hcontra
      have hgi := List.mk_mem_enum_iff_getElem?.mp h1
      have hgj := List.mk_mem_enum_iff_getElem?.mp h2
      have hi : ab.1.1 < (entries.map fun e => e.component.id).length := by
        rw [List.length_map]
        exact (List.getElem?_eq_some_iff.mp hgi).1
      have hnd : (entries.map fun e => e.component.id).Nodup := hnodup
      have heq : (entries.map fun e => e.component.id)[ab.1.1]? =
          (entries.map fun e => e.component.id)[ab.2.1]? := by
        rw [List.getElem?_map, List.getElem?_map, hgi, hgj]
        show some ab.1.2.component.id = some ab.2.2.component.id
        rw [← ha, ← hb, hcontra]
      exact Nat.ne_of_lt hlt (List.getElem?_inj hi hnd heq)

/-! ## C3 — aggregates over the recorded candidate space -/

/-- C3 (amended): the scorecard's aggregates are computed over exactly
the enumerated pairs that pass the compare-mode filter (all unordered
pairs whenever compare mode is inactive), including pairs later removed
by the threshold, ceiling, path and suppression gates: the evaluated
count is the number of such pairs, the mean is the rounded average of
their cosine similarities, and the maximum is the rounded running
maximum; pairs removed by the compare-mode filter itself are not
recorded (see the counterexample). -/
theorem scorecard_reflects_recorded_pairs :
    ∀ entries config res, findSimilarities entries config = some res →
      res.scorecard.evaluatedPairs = (recordedPairs entries config).length ∧
      res.scorecard.meanSimilarity =
        (if (recordedPairs entries config).length = 0 then 0
         else round4 (((recordedPairs entries config).map pairSim).sum /
           ((recordedPairs entries config).length : ℝ))) ∧
      res.scorecard.maxSimilarity =
        round4 ((recordedPairs entries config).foldl maxStep 0) := by
  intro entries config res h
  simp only [findSimilarities] at h
  cases hst : (entryPairs entries).foldlM (processPair config) initSimState with
  | none => rw [hst] at h; exact absurd h (by simp)
  | some st =>
    rw [hst] at h
    replace h : some
        { pairs := limitMatches st.pairs config.limit
          scorecard :=
            buildScorecard st.best st.evaluatedPairs st.similaritySum
              st.maxSimilarity st.suppressedPairs st.suppressionReasons } =
        some res := h
    obtain rfl := Option.some.inj h
    obtain ⟨hev, hsum, hmax⟩ := foldlM_aggregates config _ _ _ hst
    have hev' : st.evaluatedPairs = (recordedPairs entries config).length := by
      rw [hev]
      simp [initSimState, recordedPairs]
    refine ⟨hev', ?_, ?_⟩
    · show (if st.evaluatedPairs = 0 then (0 : ℝ)
        else round4 (st.similaritySum / (st.evaluatedPairs : ℝ))) = _
      rw [hev', hsum]
      show (if (recordedPairs entries config).length = 0 then (0 : ℝ)
        else round4 ((0 + ((recordedPairs entries config).map pairSim).sum) /
          ((recordedPairs entries config).length : ℝ))) = _
      rw [zero_add]
    · show round4 st.maxSimilarity = _
      rw [hmax]
      rfl

/-! ## Concrete run evaluations -/

/-- The double loop over two entries enumerates exactly one pair. -/
theorem entryPairs_two (a b : Entry) : entryPairs [a, b] = [((0, a), (1, b))] := by
  simp [entryPairs, List.enum, List.enumFrom, List.filter, List.flatMap]

/-- Rounding zero to four decimals. -/
theorem round4_zero : round4 0 = 0 := by
  unfold round4
  norm_num

/-- 21/29 = 0.724137… rounds to 0.7241 at four decimals, strictly below
21/29 itself. -/
theorem round4_2129 : round4 ((21 : ℝ)/29) = 7241/10000 := by
  unfold round4
  rw [show (21 : ℝ)/29 * 10000 = 210000/29 by ring, round_eq]
  norm_num [Int.floor_eq_iff]

/-- The compare-mode run: the single enumerated pair of `entX, entY` is
removed by the compare filter (neither is a target), so no similarity is
recorded and nothing is reported. -/
theorem findSim_run3 :
    findSimilarities [entX, entY] cfg3 = some { pairs := [], scorecard := sc3 } := by
  have hpp : processPair cfg3 initSimState ((0, entX), (1, entY)) =
      some (bumpSuppressed initSimState "compare-filter") :=
    processPair_filtered _ _ _ rfl
  simp only [findSimilarities, entryPairs_two, List.foldlM_cons, List.foldlM_nil, hpp,
    Option.some_bind, Option.pure_def]
  show some _ = some _
  rw [Option.some.injEq]
  show SimResult.mk (limitMatches [] cfg3.limit) _ = _
  rw [show limitMatches [] cfg3.limit = [] from by
    simp [cfg3, cfg1, limitMatches, sortPairs, List.mergeSort_nil]]
  show SimResult.mk [] (buildScorecard [] 0 0 0 1 [("compare-filter", 1)]) =
    SimResult.mk [] sc3
  rw [show buildScorecard [] 0 0 0 1 [("compare-filter", 1)] = sc3 from by
    simp [buildScorecard, sc3, round4_zero]]

/-- Building the label context of the fixture pair. -/
theorem buildContext_entXY :
    buildContext entX entY ((21 : ℝ)/29) cfg1 = some ctxXY := by
  simp only [buildContext, overlapChecked, entX, entY, compX, compY, ctxXY]
  norm_num [overlap, textOverlap, tokenize, lineCount, optLength, splitSegments,
    firstDedup]

/-- None of the five preliminary rules fires on the fixture context. -/
theorem preliminaryResult_ctxXY :
    preliminaryResult ctxXY = { labels := [], hints := [] } := by
  unfold preliminaryResult
  rw [show wrapperCheck ctxXY = none from by
    simp [wrapperCheck, isDisabled, ctxXY, cfg1, entX, entY, compX, compY]]
  rw [show styleCheck ctxXY = none from by
    simp [styleCheck, isDisabled, ctxXY, cfg1]]
  rw [show logicCheck ctxXY = none from by
    norm_num [logicCheck, isDisabled, ctxXY, cfg1]]
  rw [show copyCheck ctxXY = none from by
    rw [copyCheck, if_neg (by simp [isDisabled, ctxXY, cfg1]),
      if_neg (by rintro (hc | hc) <;> norm_num [ctxXY] at hc)]]
  rw [show propCheck ctxXY = none from by
    rw [propCheck, if_neg (by simp [isDisabled, ctxXY, cfg1]),
      if_neg (by rintro ⟨hhigh, -⟩; norm_num [ctxXY, cfg1] at hhigh)]]
  rfl

/-- The fork rule does not fire on the fixture context: the line counts
are equal, so the required difference of 4 is missing. -/
theorem forkCheck_ctxXY : forkCheck ctxXY [] = none := by
  rw [forkCheck, if_neg (by simp [isDisabled, ctxXY, cfg1]),
    if_neg (by rintro ⟨-, -, hld⟩; norm_num [ctxXY] at hld)]

/-- The fixture pair gets no labels and no hints. -/
theorem labelPair_entXY :
    labelPair entX entY ((21 : ℝ)/29) cfg1 = some { labels := [], hints := [] } := by
  rw [labelPair_eq, buildContext_entXY, Option.map_some', preliminaryResult_ctxXY]
  rw [show ({ labels := [], hints := [] } : LabelResult).labels = [] from rfl]
  rw [forkCheck_ctxXY]
  rfl

/-- Processing the fixture pair under `cfg1`: the similarity 21/29
passes every gate (the threshold is exactly 21/29), no suppression or
label fires, and the reported pair carries the rounded similarity
0.7241. -/
theorem findSim_run1_step :
    processPair cfg1 initSimState ((0, entX), (1, entY)) = some
      { pairs := [pair1],
        best := [("X", (21 : ℝ)/29), ("Y", (21 : ℝ)/29)],
        evaluatedPairs := 1, similaritySum := 0 + 21/29,
        maxSimilarity := (21 : ℝ)/29, suppressedPairs := 0,
        suppressionReasons := [] } := by
  have hth : ¬(pairSim ((0, entX), (1, entY)) <
      ((cfg1.similarityThreshold : ℚ) : ℝ)) := by
    rw [pairSim_entXY]
    norm_num [cfg1]
  have hmaxg : ¬((1e-6 : ℝ) < pairSim ((0, entX), (1, entY)) -
      ((maxThreshold cfg1 : ℚ) : ℝ)) := by
    rw [pairSim_entXY]
    norm_num [maxThreshold, cfg1]
  have hlab : labelPair ((0, entX) : Nat × Entry).2 ((1, entY) : Nat × Entry).2
      (pairSim ((0, entX), (1, entY))) cfg1 = some { labels := [], hints := [] } := by
    rw [pairSim_entXY]
    exact labelPair_entXY
  have hrep := processPair_reported cfg1 initSimState ((0, entX), (1, entY))
    { labels := [], hints := [] } rfl hth hmaxg rfl rfl hlab
  rw [pairSim_entXY] at hrep
  have hxy : (("X" : String) = "Y") = False := by
    simp
  have hrec : recordAggregates initSimState entX entY ((21 : ℝ)/29) =
      { pairs := [], best := [("X", (21 : ℝ)/29), ("Y", (21 : ℝ)/29)],
        evaluatedPairs := 1, similaritySum := 0 + 21/29,
        maxSimilarity := (21 : ℝ)/29, suppressedPairs := 0,
        suppressionReasons := [] } := by
    unfold recordAggregates trackBestSimilarity lookupAssoc setAssoc initSimState
    norm_num [entX, entY, compX, compY, hxy]
  rw [hrep]
  rw [show (((0, entX), (1, entY)) : (Nat × Entry) × (Nat × Entry)).1.2 = entX from rfl,
    show (((0, entX), (1, entY)) : (Nat × Entry) × (Nat × Entry)).2.2 = entY from rfl]
    at *
  rw [hrec]
  rw [Option.some.injEq]
  rw [show (if ((cfg1.highSimilarityThreshold : ℚ) : ℝ) ≤ ((21 : ℝ)/29) then
      "almost-identical" else "near-duplicate") = "near-duplicate" from
    if_neg (by norm_num [cfg1])]
  rw [round4_2129]
  rfl

/-- The full fixture run under `cfg1`: one pair is reported with the
rounded similarity 0.7241 and the scorecard aggregates 21/29. -/
theorem findSim_run1 :
    findSimilarities [entX, entY] cfg1 = some { pairs := [pair1], scorecard := sc1 } := by
  simp only [findSimilarities, entryPairs_two, List.foldlM_cons, List.foldlM_nil,
    findSim_run1_step, Option.some_bind, Option.pure_def]
  show some _ = some _
  rw [Option.some.injEq]
  have hlim : limitMatches [pair1] cfg1.limit = [pair1] := by
    show sortPairs [pair1] = [pair1]
    exact List.perm_singleton.mp (List.mergeSort_perm _ _)
  rw [show (SimResult.mk (limitMatches [pair1] cfg1.limit)
      (buildScorecard [("X", (21 : ℝ)/29), ("Y", (21 : ℝ)/29)] 1 (0 + 21/29)
        ((21 : ℝ)/29) 0 [])) = SimResult.mk [pair1] sc1 from by
    rw [hlim]
    rw [show buildScorecard [("X", (21 : ℝ)/29), ("Y", (21 : ℝ)/29)] 1 (0 + 21/29)
        ((21 : ℝ)/29) 0 [] = sc1 from by
      unfold buildScorecard listMinR listMaxR sc1
      norm_num [round4_2129]]]

/-- C1, counterexample: with the similarity threshold set to exactly
21/29, the fixture pair passes every gate (its cosine similarity is
exactly 21/29), yet the recorded similarity — rounded to 4 decimals,
0.7241 — is strictly below the threshold, refuting the claim for the
recorded value. -/
theorem accepted_pair_similarity_below_threshold :
    ∃ res, findSimilarities [entX, entY] cfg1 = some res ∧ pair1 ∈ res.pairs ∧
      pair1.similarity < ((cfg1.similarityThreshold : ℚ) : ℝ) :=
  ⟨_, findSim_run1, by simp, by norm_num [pair1, cfg1]⟩

/-- C1, witness: the accepted-pair invariant applied to the concrete
fixture run. -/
theorem findSimilarities_accepted_pair_invariant_witness :
    ∃ i j eA eB,
      (i, eA) ∈ ([entX, entY]).enum ∧ (j, eB) ∈ ([entX, entY]).enum ∧ i < j ∧
      pair1.a = eA.component.id ∧ pair1.b = eB.component.id ∧
      (([entX, entY].map fun e => e.component.id).Nodup → pair1.a ≠ pair1.b) ∧
      ((cfg1.similarityThreshold : ℚ) : ℝ) ≤ cosine eA.vector eB.vector ∧
      cosine eA.vector eB.vector - ((maxThreshold cfg1 : ℚ) : ℝ) ≤ 1e-6 ∧
      pair1.similarity = round4 (cosine eA.vector eB.vector) :=
  findSimilarities_accepted_pair_invariant [entX, entY] cfg1 _ findSim_run1 pair1
    (by simp)

/-- C3, counterexample: with compare mode active and neither fixture
unit a target, the single enumerated pair is removed by the compare
filter before any similarity is computed — the scorecard records 0
evaluated pairs although 1 pair was enumerated (and suppressed),
refuting the claim that the aggregates cover all enumerated pairs
including filtered ones. -/
theorem compare_filtered_pair_not_in_aggregates :
    ∃ res, findSimilarities [entX, entY] cfg3 = some res ∧
      (entryPairs [entX, entY]).length = 1 ∧
      res.scorecard.evaluatedPairs = 0 ∧ res.scorecard.suppressedPairs = 1 :=
  ⟨_, findSim_run3, by rw [entryPairs_two]; rfl, rfl, rfl⟩

/-- C3, witness: the aggregate characterization applied to the concrete
fixture run. -/
theorem scorecard_reflects_recorded_pairs_witness :
    sc1.evaluatedPairs = (recordedPairs [entX, entY] cfg1).length ∧
    sc1.meanSimilarity =
      (if (recordedPairs [entX, entY] cfg1).length = 0 then 0
       else round4 (((recordedPairs [entX, entY] cfg1).map pairSim).sum /
         ((recordedPairs [entX, entY] cfg1).length : ℝ))) ∧
    sc1.maxSimilarity = round4 ((recordedPairs [entX, entY] cfg1).foldl maxStep 0) :=
  scorecard_reflects_recorded_pairs [entX, entY] cfg1 _ findSim_run1

/-! ## C7 — determinism -/

/-- C7: `findSimilarities` is a pure function of its entry list and
configuration — two invocations on equal inputs return equal pairs
lists and scorecards.  The embedding makes this meaningful: every input
the source loop reads (entries, vectors, component metadata,
configuration) is a parameter, the only randomness in the module
(`Math.random` in cache cleanup) is outside this function, and the
ECMAScript sort is stable, modelled by a stable merge sort, so no
hidden tie-breaking state exists. -/
theorem findSimilarities_deterministic :
    ∀ (entries1 entries2 : List Entry) (config1 config2 : Config),
      entries1 = entries2 → config1 = config2 →
      findSimilarities entries1 config1 = findSimilarities entries2 config2 := by
  intro entries1 entries2 config1 config2 h1 h2
  rw [h1, h2]

/-- C7, witness: the two fixture invocations coincide. -/
theorem findSimilarities_deterministic_witness :
    findSimilarities [entX, entY] cfg1 = findSimilarities [entX, entY] cfg1 :=
  findSimilarities_deterministic [entX, entY] [entX, entY] cfg1 cfg1 rfl rfl

/-- C8, witness: the fork-rule characterization applied to the concrete
fixture pair, whose label list is empty. -/
theorem forked_clone_only_without_other_labels_witness :
    ∃ ctx, buildContext entX entY ((21 : ℝ)/29) cfg1 = some ctx ∧
      ({ labels := [], hints := [] } : LabelResult) =
        runCheck (preliminaryResult ctx)
          (forkCheck ctx (preliminaryResult ctx).labels) ∧
      ("forked-clone" ∈ ({ labels := [], hints := [] } : LabelResult).labels ↔
        isDisabled cfg1 "forked-clone" = false ∧
        ((cfg1.similarityThreshold : ℚ) : ℝ) ≤ (21 : ℝ)/29 ∧
        (preliminaryResult ctx).labels = [] ∧
        4 ≤ ((lineCount entX.component.source : Int)
          - (lineCount entY.component.source : Int)).natAbs) :=
  forked_clone_only_without_other_labels entX entY ((21 : ℝ)/29) cfg1 _
    labelPair_entXY

end Duplicalis
